import Mathlib

/-!
Verification of the nationwide LoRa mesh planning tools.

Shallow embedding of the Python sources under `tools/`:
  * `scaffold_and_score_hexes.py` — zone defaults, scaffolding, scoring engine
  * `apply_tiera_coverage.py`     — adjacency index and the Tier-A coverage pass
  * `make_hex_cells.py`           — the hex tessellator's emitted properties
  * `seed_tiera_from_corridors.py`— corridor sampler and Tier-A seeding
  * `seed_tierb_sites.py`         — Tier-B seeding

JSON property values are modelled by `JVal` (numbers as exact rationals,
standing in for floats at planning-grade precision), property dictionaries by
partial maps `Props`, and geometry coordinates by a linearly ordered field
`α` (instantiated at `ℝ` where the source's `sqrt`/`cos` arithmetic matters,
and at `ℚ` for concrete executable witnesses).
-/

namespace LoraMesh

/-- A JSON property value as read by the Python tools: `null` (Python `None`),
a string, or a number.  Numbers are modelled as exact rationals. -/
inductive JVal where
  | null
  | str (s : String)
  | num (q : ℚ)
deriving DecidableEq, Repr

/-- Python truthiness for the values above: `None`, `""` and `0` are falsy. -/
def JVal.truthy : JVal → Bool
  | .null => false
  | .str s => s != ""
  | .num q => q != 0

/-- A GeoJSON `properties` dictionary: a partial map from key to value.
`none` means the key is absent from the dictionary. -/
def Props : Type := String → Option JVal

/-- Python `props.get(k, 0)` (used by `compute_confidence_score`). -/
def Props.get0 (p : Props) (k : String) : JVal := (p k).getD (.num 0)

/-- Python `int(v)`: truncation toward zero for numbers.  `int(None)` raises
(`none` here); numeric strings, which `int` would parse, are outside the wire
contract (flags/weights are numbers) and are also modelled as a raise. -/
def int_of_jval : JVal → Option ℤ
  | .num q => some (Int.tdiv q.num q.den)
  | _ => none

/-- Python truthiness of an optional (possibly absent) property value. -/
def jval_otruthy : Option JVal → Bool
  | none => false
  | some v => v.truthy

/-- Python `a or b` on two property lookups (used by the cell-id fallback
chain `props.get("cell_id") or props.get("id") or props.get("hex_id")`). -/
def py_or (a b : Option JVal) : Option JVal := if jval_otruthy a then a else b

/-- Python `str(v)` for building names and index keys.  The numeric rendering
is an approximation of CPython's float formatting; ids are strings under the
wire contract, where this is exact. -/
def py_str : JVal → String
  | .str s => s
  | .num q => toString q
  | .null => "None"

/-- Python `int(props.get(k, 0) or 0)` — the count-extraction idiom used by
both seeding scripts (`seed_tiera_from_corridors.py` line 185,
`seed_tierb_sites.py` line 154). -/
def py_int_or0 (v : Option JVal) : Option ℤ :=
  let w := v.getD (.num 0)
  int_of_jval (if w.truthy then w else .num 0)

/-! ### Scoring engine (`scaffold_and_score_hexes.py`) -/

/-- Source `clamp(x, lo, hi)` (line 42): `lo if x < lo else hi if x > hi else x`. -/
def clamp (x lo hi : ℤ) : ℤ := if x < lo then lo else if hi < x then hi else x

/-- Source `compute_confidence_score(p)` (lines 45-59): reads the four flags
with `int(p.get(k, 0))`, scores `25·los + 20·elev + 20·tall + 15·(1-clutter)`,
and clamps to [0, 100].  `none` models the `int()` conversion raising. -/
def compute_confidence_score (p : Props) : Option ℤ := do
  let elev ← int_of_jval (p.get0 "elev_adv_avail")
  let tall ← int_of_jval (p.get0 "tall_struct_avail")
  let clutter ← int_of_jval (p.get0 "clutter_high")
  let los ← int_of_jval (p.get0 "backbone_los_likely")
  pure (clamp (25 * los + 20 * elev + 20 * tall + 15 * (1 - clutter)) 0 100)

/-- Source `confidence_class(score)` (lines 61-66). -/
def confidence_class (score : ℤ) : String :=
  if 70 ≤ score then "HIGH" else if 40 ≤ score then "MED" else "LOW"

/-- Source `tierB_requirements(conf_class)` (lines 68-74). -/
def tierB_requirements (conf_class : String) : ℤ × ℤ :=
  if conf_class = "LOW" then (2, 1) else if conf_class = "MED" then (1, 1) else (1, 0)

/-- One row of the `ZONE_DEFAULTS` table, as a map from field name to number. -/
def zone_row (e t c l pw cw : ℚ) : String → ℚ := fun k =>
  if k = "elev_adv_avail" then e
  else if k = "tall_struct_avail" then t
  else if k = "clutter_high" then c
  else if k = "backbone_los_likely" then l
  else if k = "pop_weight" then pw
  else if k = "critical_weight" then cw
  else 0

/-- Source `ZONE_DEFAULTS` (lines 7-40) together with the lookup idiom
`ZONE_DEFAULTS.get(zid, ZONE_DEFAULTS[""])` (line 108): any key other than
the three named zones — including the empty string — yields the all-zero
"unassigned" row. -/
def ZONE_DEFAULTS (zid : JVal) : String → ℚ :=
  if zid = JVal.str "Z_WEST_HIGH_RELIEF" then zone_row 1 0 0 1 (1/5) (1/5)
  else if zid = JVal.str "Z_CENTRAL_LOW_RELIEF" then zone_row 0 1 0 1 (2/5) (3/10)
  else if zid = JVal.str "Z_EAST_RIDGE_METRO" then zone_row 1 1 1 0 (3/5) (2/5)
  else zone_row 0 0 0 0 0 0

/-- The four suitability flag keys scaffolded at line 111 of the source. -/
def boolKeys : List String :=
  ["elev_adv_avail", "tall_struct_avail", "clutter_high", "backbone_los_likely"]

/-- The two weight keys scaffolded at line 120 of the source. -/
def weightKeys : List String := ["pop_weight", "critical_weight"]

/-- Blankness test for a flag: `k not in p or p.get(k) in (None, "")`
(source line 112). -/
def blank_bool : Option JVal → Bool
  | none => true
  | some .null => true
  | some (.str s) => s == ""
  | some _ => false

/-- Blankness test for a weight: `k not in p or p.get(k) is None`
(source line 121) — note an empty-string weight is NOT blank here. -/
def blank_weight : Option JVal → Bool
  | none => true
  | some .null => true
  | some _ => false

/-- The scaffolding step of `main` (source lines 104-127): fill a blank flag
or a missing/None weight from the zone default row selected by
`p.get("zone_id", "")`; leave every other key untouched. -/
def scaffold_props (p : Props) : Props :=
  let defaults := ZONE_DEFAULTS ((p "zone_id").getD (.str ""))
  fun k =>
    if k ∈ boolKeys then (if blank_bool (p k) then some (.num (defaults k)) else p k)
    else if k ∈ weightKeys then (if blank_weight (p k) then some (.num (defaults k)) else p k)
    else p k

/-! ### Tessellator output (`make_hex_cells.py`) and zone assignment -/

/-- The derived-output keys emitted as `None` by the tessellator. -/
def derivedKeys : List String :=
  ["confidence_score", "confidence_class", "tierB_sites_required",
   "tierB_alternate_required", "tierC_demand_class", "priority_score"]

/-- The properties dictionary emitted for every cell by `make_hex_cells.py`
(lines 62-83): explicit `0` flags, explicit `0.0` weights, `None` derived
fields, empty `zone_id` and `notes`. -/
def tessellator_props (cid : String) : Props := fun k =>
  if k = "cell_id" then some (.str cid)
  else if k = "zone_id" then some (.str "")
  else if k = "cell_radius_mi" then some (.num 35)
  else if k ∈ boolKeys then some (.num 0)
  else if k ∈ weightKeys then some (.num 0)
  else if k ∈ derivedKeys then some .null
  else if k = "notes" then some (.str "")
  else none

/-- The zone classifier's only mutation (`assign_zones_to_hexes.py` lines
63-68): `hprops["zone_id"] = zid` (or `""` when unassigned). -/
def set_zone (p : Props) (z : String) : Props :=
  fun k => if k = "zone_id" then some (.str z) else p k

/-! ### Coverage pass (`apply_tiera_coverage.py`) -/

/-- A site feature as read by the coverage pass.  Each field models
`props.get(key)` under the wire contract that these values are strings;
`none` means absent (or `null`).  `geometry` is the point geometry as an
opaque payload and `extra` holds all remaining properties, so that the
frame of the pass can be stated. -/
structure Site where
  tier : Option String
  notes : Option String
  status : Option String
  cell_id : Option String
  zone_id : Option String
  site_id : Option String
  corridor_id : Option String
  satisfied_by : Option String
  satisfied_corridor_id : Option String
  geometry : String
  extra : List (String × JVal)
deriving DecidableEq, Repr

/-- A default (all-absent) site, used only as the out-of-range default of
`List.getD`. -/
def default_site : Site :=
  ⟨none, none, none, none, none, none, none, none, none, "", []⟩

/-- Python truthiness of an optional string property (`if not cell_id`). -/
def otruthy : Option String → Bool
  | none => false
  | some s => s != ""

/-- The adjacency index handed to the pass, as an association list from
`cell_id` to its neighbor set (sets as lists, membership is what matters). -/
def NeighborMap : Type := List (String × List String)

/-- Source line 106: `covered_cells = neighbor_map.get(cell_id, {cell_id})`. -/
def covered_cells (nm : NeighborMap) (c : String) : List String :=
  match nm.lookup c with
  | some l => l
  | none => [c]

/-- Membership in the candidate index `tierb_candidates_by_cell` (source
lines 80-96): a Tier-B feature, not flagged `ALT`, still `CANDIDATE`, with a
truthy `cell_id`. -/
def is_required_candidate (s : Site) : Bool :=
  s.tier == some "B" && s.notes != some "ALT" &&
    s.status == some "CANDIDATE" && otruthy s.cell_id

/-- Source lines 114-116: mark a candidate satisfied by Tier-A site `a`. -/
def satisfy_with (a s : Site) : Site :=
  { s with status := some "SATISFIED",
           satisfied_by := a.site_id,
           satisfied_corridor_id := a.corridor_id }

/-- The effect of processing one Tier-A feature `a` on one site `s` (source
lines 101-118): if `a` has a truthy cell, `s` is an eligible candidate, and
`s`'s cell lies in `a`'s coverage set, satisfy `s`; otherwise leave it.
The Python code reaches candidates through the `tierb_candidates_by_cell`
index built at lines 80-96; since the pass never changes `tier`, `notes` or
`cell_id`, index membership of a still-CANDIDATE site is exactly
`is_required_candidate`, which is tested here directly. -/
def coverage_step (nm : NeighborMap) (a s : Site) : Site :=
  if otruthy a.cell_id && is_required_candidate s &&
      (covered_cells nm (a.cell_id.getD "")).contains (s.cell_id.getD "")
  then satisfy_with a s else s

/-- The `tiera_features` list collected at source lines 84-85: the Tier-A
features of the collection, in input order. -/
def tiera_features (sites : List Site) : List Site :=
  sites.filter (fun s => s.tier == some "A")

/-- The whole coverage pass over the sites collection (source lines 80-120):
Tier-A features in input order, each satisfying every eligible candidate in
its coverage set.  Within a single Tier-A feature the Python iteration order
over the coverage set does not affect the result, since every candidate it
reaches receives the same `satisfied_by`. -/
def apply_tiera_pass (nm : NeighborMap) (sites : List Site) : List Site :=
  (tiera_features sites).foldl (fun acc a => acc.map (coverage_step nm a)) sites

/-- Classification used by the rollup: a required (non-ALT) Tier-B feature
(source lines 84-92). -/
def is_tierb_required (s : Site) : Bool :=
  s.tier == some "B" && s.notes != some "ALT"

/-- Classification used by the rollup: an ALT Tier-B feature. -/
def is_tierb_alt (s : Site) : Bool :=
  s.tier == some "B" && s.notes == some "ALT"

/-- Per-zone rollup row written to `tierb_after_tiera_by_zone.csv`. -/
structure ZoneStats where
  tierB_required_before : ℕ
  tierB_required_after : ℕ
  tierB_alt_total : ℕ
  tierA_sites : ℕ
deriving DecidableEq, Repr

/-- The per-zone rollup of the pass (source lines 122-171), as a function of
the post-pass sites collection (the source counts the same in-memory features
after mutation; features with a falsy `zone_id` are skipped). -/
def zone_rollup (sites : List Site) (z : String) : ZoneStats where
  tierB_required_before :=
    (sites.filter (fun s =>
      is_tierb_required s && otruthy s.zone_id && s.zone_id == some z)).length
  tierB_required_after :=
    (sites.filter (fun s =>
      is_tierb_required s && otruthy s.zone_id && s.zone_id == some z &&
        s.status != some "SATISFIED")).length
  tierB_alt_total :=
    (sites.filter (fun s =>
      is_tierb_alt s && otruthy s.zone_id && s.zone_id == some z)).length
  tierA_sites :=
    (sites.filter (fun s =>
      s.tier == some "A" && otruthy s.zone_id && s.zone_id == some z)).length

/-- The first Tier-A feature (in input order) whose coverage set contains
cell `c` — the "first writer" of the pass's tie-break. -/
def first_coverer (nm : NeighborMap) (tiera : List Site) (c : String) : Option Site :=
  tiera.find? (fun a =>
    otruthy a.cell_id && (covered_cells nm (a.cell_id.getD "")).contains c)

/-! ### Geometry payloads -/

/-- A GeoJSON geometry with coordinates in `α` (floats in the source).
`unsupported` stands for any other geometry type (the scripts raise on it). -/
inductive Geom (α : Type) where
  | polygon (rings : List (List (α × α)))
  | multiPolygon (polys : List (List (List (α × α))))
  | lineString (coords : List (α × α))
  | unsupported (t : String)
deriving DecidableEq, Repr

/-- Source `iter_vertices(geometry)` (`apply_tiera_coverage.py` lines 21-34):
all ring vertices of a Polygon or MultiPolygon, in order; any other geometry
type raises `ValueError` (`none` here). -/
def iter_vertices {α : Type} : Geom α → Option (List (α × α))
  | .polygon rings => some rings.flatten
  | .multiPolygon polys => some (polys.map List.flatten).flatten
  | _ => none

/-! ### Adjacency index (`apply_tiera_coverage.py` lines 37-55) -/

/-- A hex-cell feature as read by `build_neighbor_map`: its
`properties.get("cell_id")` (a string under the wire contract; `none` or `""`
are falsy and skipped) and its geometry. -/
structure HexFeature (α : Type) where
  cell_id : Option String
  geometry : Geom α
deriving DecidableEq, Repr

/-- The vertex list of a feature; an unsupported geometry contributes nothing
here (in the source it aborts the whole build instead). -/
def verts_of {α : Type} (f : HexFeature α) : List (α × α) :=
  (iter_vertices f.geometry).getD []

/-- Source `vertex_to_cells` (lines 38-47): the set of (truthy) cell ids of
all features having `v` among their vertices. -/
def vertex_to_cells {α : Type} [DecidableEq α] (fs : List (HexFeature α))
    (v : α × α) : Finset String :=
  fs.foldl (fun acc f =>
    if otruthy f.cell_id = true ∧ v ∈ verts_of f
    then insert (f.cell_id.getD "") acc else acc) ∅

/-- Source `cell_vertices` (lines 39-45): a dict keyed by cell id, so a later
feature with the same id overwrites an earlier one — the last matching
feature's vertex set wins.  `none` when `c` is no feature's (truthy) id. -/
def cell_vertices {α : Type} (fs : List (HexFeature α)) (c : String) :
    Option (List (α × α)) :=
  ((fs.filter (fun f => otruthy f.cell_id && f.cell_id.getD "" == c)).getLast?).map
    verts_of

/-- Source `neighbor_map` construction (lines 49-55): the neighbor set of `c`
is the union, over `c`'s own vertices, of all cells sharing that vertex.
Cells that are not keys of the map get the empty set. -/
def neighbor_set {α : Type} [DecidableEq α] (fs : List (HexFeature α))
    (c : String) : Finset String :=
  match cell_vertices fs c with
  | none => ∅
  | some vs => vs.foldl (fun acc v => acc ∪ vertex_to_cells fs v) ∅

/-- The (truthy) cell ids of a feature list, in input order — the data-model
invariant says these are unique. -/
def hex_ids {α : Type} (fs : List (HexFeature α)) : List String :=
  (fs.filter (fun f => otruthy f.cell_id)).map (fun f => f.cell_id.getD "")

/-! ### Corridor sampler (`seed_tiera_from_corridors.py` lines 74-129)

The sampler's arithmetic is over floats; it is embedded generically over a
linearly ordered field `α`, parametrised by the segment-length function
`segLen` (the source's `_segment_len_mi`, whose `sqrt`/`cos` arithmetic is
defined below over `ℝ`). -/

/-- Source `_interpolate_on_segment(a, b, t)` (lines 92-93). -/
def _interpolate_on_segment {α : Type} [LinearOrderedField α]
    (a b : α × α) (t : α) : α × α :=
  (a.1 + (b.1 - a.1) * t, a.2 + (b.2 - a.2) * t)

/-- Source `_line_length_mi(coords)` (lines 84-90): sum of the segment
lengths of consecutive coordinate pairs. -/
def _line_length_mi {α : Type} [LinearOrderedField α]
    (segLen : α × α → α × α → α) : List (α × α) → α
  | a :: b :: rest => segLen a b + _line_length_mi segLen (b :: rest)
  | _ => 0

/-- The walking loop of `_point_at_distance` (lines 118-129), carrying the
accumulated `walked` length.  The final one-element case models the
`return (coords[-1][0], coords[-1][1])` fall-through; an empty coordinate
list is an `IndexError` in the source, modelled by the junk value `(0, 0)`.
Python guards `t = 0.0 if seg == 0 else ...`, kept verbatim. -/
def _point_at_distance_walk {α : Type} [LinearOrderedField α]
    (segLen : α × α → α × α → α) : List (α × α) → α → α → α × α
  | a :: b :: rest, dist, walked =>
    let seg := segLen a b
    if dist ≤ walked + seg then
      _interpolate_on_segment a b (if seg = 0 then 0 else (dist - walked) / seg)
    else _point_at_distance_walk segLen (b :: rest) dist (walked + seg)
  | [a], _, _ => a
  | [], _, _ => (0, 0)

/-- Source `_point_at_distance(coords, dist_mi)` (lines 118-129). -/
def _point_at_distance {α : Type} [LinearOrderedField α]
    (segLen : α × α → α × α → α) (coords : List (α × α)) (dist : α) : α × α :=
  _point_at_distance_walk segLen coords dist 0

/-- Source `_sample_points_along_line(coords, n)` (lines 95-116).  The count
`n` is a natural number (the callers pass `required + alternate ≥ 0`; the
source's `n <= 0` guard is `n = 0` here).  The degenerate branch's
`coords[0]` on an empty list is an `IndexError` in the source, modelled by
the junk head `(0, 0)`. -/
def _sample_points_along_line {α : Type} [LinearOrderedField α]
    (segLen : α × α → α × α → α) (coords : List (α × α)) (n : ℕ) :
    List (α × α) :=
  if n = 0 then []
  else if n = 1 then
    [_point_at_distance segLen coords (_line_length_mi segLen coords / 2)]
  else
    let total := _line_length_mi segLen coords
    if total ≤ 0 then List.replicate n (coords.headD (0, 0))
    else (List.range' 1 n).map (fun (i : ℕ) =>
      _point_at_distance segLen coords (total * ((i : α) / ((n : α) + 1))))

/-- Source `_deg_to_miles_lon(dlon, lat_deg)` (lines 68-69);
`radians(x) = x·π/180`. -/
noncomputable def _deg_to_miles_lon (dlon lat_deg : ℝ) : ℝ :=
  dlon * 69 * Real.cos (lat_deg * (Real.pi / 180))

/-- Source `_deg_to_miles_lat(dlat)` (lines 71-72). -/
def _deg_to_miles_lat (dlat : ℝ) : ℝ := dlat * 69

/-- Source `_segment_len_mi(a, b)` (lines 74-82): the equirectangular
degree→mile approximation at the segment's mean latitude. -/
noncomputable def _segment_len_mi (a b : ℝ × ℝ) : ℝ :=
  let mx := _deg_to_miles_lon (b.1 - a.1) ((a.2 + b.2) / 2)
  let my := _deg_to_miles_lat (b.2 - a.2)
  Real.sqrt (mx * mx + my * my)

/-! ### Shared feature shapes for the seeding scripts -/

/-- A generic GeoJSON feature (a hex cell or a corridor) as read by the
seeding scripts: its full properties dictionary and its geometry. -/
structure Feature (α : Type) where
  props : Props
  geometry : Geom α

/-- A point-geometry site feature as written by the seeding scripts. -/
structure SiteFeature (α : Type) where
  point : α × α
  props : Props

/-- A default (empty) site feature, used as `List.getD` default. -/
def default_site_feature {α : Type} [LinearOrderedField α] : SiteFeature α :=
  ⟨(0, 0), fun _ => none⟩

/-- Python `f"\x7bn:04d\x7d"`: decimal rendering zero-padded to width 4. -/
def zfill4 (n : ℕ) : String :=
  let s := toString n
  if s.length < 4 then String.mk (List.replicate (4 - s.length) '0') ++ s else s

/-- Python `f"\x7bn:02d\x7d"`: decimal rendering zero-padded to width 2. -/
def zfill2 (n : ℕ) : String :=
  let s := toString n
  if s.length < 2 then String.mk (List.replicate (2 - s.length) '0') ++ s else s

/-- The `cell_id or id or hex_id` fallback chain used by both seeding
scripts (`seed_tiera_from_corridors.py` line 141, `seed_tierb_sites.py`
line 146). -/
def feature_cell_id_chain (p : Props) : Option JVal :=
  py_or (py_or (p "cell_id") (p "id")) (p "hex_id")

/-! ### Tier-A seeding (`seed_tiera_from_corridors.py`) -/

/-- The pair loop of `_point_in_ring` (lines 47-59): even-odd ray casting
over consecutive ring vertices, with the source's `1e-12` denominator
epsilon. -/
def _point_in_ring_loop {α : Type} [LinearOrderedField α]
    (x y : α) : List (α × α) → Bool → Bool
  | (x1, y1) :: (x2, y2) :: rest, inside =>
    let inside' :=
      if (decide (y < y1) != decide (y < y2)) = true then
        let xinters := (x2 - x1) * (y - y1) / ((y2 - y1) + 1 / 1000000000000) + x1
        if x < xinters then !inside else inside
      else inside
    _point_in_ring_loop x y ((x2, y2) :: rest) inside'
  | _, inside => inside

/-- Source `_point_in_ring(point, ring)` (lines 47-59). -/
def _point_in_ring {α : Type} [LinearOrderedField α]
    (pt : α × α) (ring : List (α × α)) : Bool :=
  _point_in_ring_loop pt.1 pt.2 ring false

/-- Source `_point_in_polygon(point, polygon_coords)` (lines 61-66): outer
ring only, holes ignored.  `polygon_coords[0]` of an empty coordinate list
is an `IndexError` in the source; the empty ring here tests false. -/
def _point_in_polygon {α : Type} [LinearOrderedField α]
    (pt : α × α) (poly : List (List (α × α))) : Bool :=
  _point_in_ring pt (poly.headD [])

/-- Source `_build_hex_index(hex_features)` (lines 131-146): the list of
`(cell_id, zone_id, polygon_coords)` for Polygon features whose id chain and
`zone_id` are not `None`, both rendered with `str(...)`. -/
def _build_hex_index {α : Type} (fs : List (Feature α)) :
    List (String × String × List (List (α × α))) :=
  fs.filterMap (fun f =>
    match f.geometry with
    | .polygon rings =>
      match feature_cell_id_chain f.props, f.props "zone_id" with
      | some cv, some zv =>
        if cv = .null ∨ zv = .null then none
        else some (py_str cv, py_str zv, rings)
      | _, _ => none
    | _ => none)

/-- Source `_find_hex_for_point(pt, hex_index)` (lines 148-152): linear
scan, first containing cell wins. -/
def _find_hex_for_point {α : Type} [LinearOrderedField α] (pt : α × α)
    (idx : List (String × String × List (List (α × α)))) :
    Option (String × String) :=
  idx.findSome? (fun e =>
    if _point_in_polygon pt e.2.2 then some (e.1, e.2.1) else none)

/-- Tier-A site id `f"S_A_\x7bseq:04d\x7d"` (line 215). -/
def site_id_a (seq : ℕ) : String := "S_A_" ++ zfill4 seq

/-- The properties dictionary of a seeded Tier-A site (lines 218-226,
spreading `DEFAULT_SITE_FIELDS` from lines 30-37). -/
def tiera_site_props (seq : ℕ) (corridor_id : JVal) (i : ℕ)
    (cell zone : String) (is_alt : Bool) : Props := fun k =>
  if k = "site_id" then some (.str (site_id_a seq))
  else if k = "site_name" then
    some (.str ("Tier A " ++ py_str corridor_id ++ " #" ++ zfill2 (i + 1)))
  else if k = "cell_id" then some (.str cell)
  else if k = "zone_id" then some (.str zone)
  else if k = "corridor_id" then some corridor_id
  else if k = "notes" then some (.str (if is_alt then "ALT" else ""))
  else if k = "tier" then some (.str "A")
  else if k = "status" then some (.str "CANDIDATE")
  else if k = "site_class" then some (.str "OTHER")
  else if k = "access_class" then some (.str "MODERATE")
  else if k = "power_class" then some (.str "UNKNOWN")
  else if k = "risk_lightning" then some (.str "UNKNOWN")
  else none

/-- The inner point loop of Tier-A `main` (lines 206-234): for each sampled
index `i`, resolve the point to a hex; a point matching no hex is skipped
and — crucially — does not advance `seq`.  Returns the final `seq` and the
seeded sites in order. -/
def seed_points {α : Type} [LinearOrderedField α]
    (idx : List (String × String × List (List (α × α)))) (corridor_id : JVal)
    (pts : List (α × α)) (required : ℕ) :
    List ℕ → ℕ → ℕ × List (SiteFeature α)
  | [], seq => (seq, [])
  | i :: rest, seq =>
    let pt := pts.getD i (0, 0)
    match _find_hex_for_point pt idx with
    | none => seed_points idx corridor_id pts required rest seq
    | some cz =>
      let site : SiteFeature α :=
        ⟨pt, tiera_site_props seq corridor_id i cz.1 cz.2 (required ≤ i)⟩
      let r := seed_points idx corridor_id pts required rest (seq + 1)
      (r.1, site :: r.2)

/-- The corridor loop of Tier-A `main` (lines 177-234): per corridor, check
the geometry type, extract the target counts with `int(... or 0)` and the
`corridor_id`, compute `required = max(0, tmin)`,
`alternate = max(0, tmax - tmin)`, skip when the total is zero, otherwise
sample `total` points and run the point loop.  Errors model the source's
`SystemExit`/`ValueError` aborts.  (The per-corridor CSV rollup does not
touch the sites collection and is not modelled.) -/
def seed_corridors {α : Type} [LinearOrderedField α]
    (idx : List (String × String × List (List (α × α))))
    (segLen : α × α → α × α → α) :
    List (Feature α) → ℕ → Except String (ℕ × List (SiteFeature α))
  | [], seq => .ok (seq, [])
  | c :: rest, seq =>
    match c.geometry with
    | .lineString coords =>
      match py_int_or0 (c.props "tierA_target_sites_min"),
            py_int_or0 (c.props "tierA_target_sites_max") with
      | some tmin, some tmax =>
        match c.props "corridor_id" with
        | none => .error "corridor feature missing corridor_id"
        | some cid =>
          if cid = .null then .error "corridor feature missing corridor_id"
          else
            let required := tmin.toNat
            let alternate := (tmax - tmin).toNat
            let total := required + alternate
            if total = 0 then seed_corridors idx segLen rest seq
            else
              let pts := _sample_points_along_line segLen coords total
              let r := seed_points idx cid pts required (List.range total) seq
              match seed_corridors idx segLen rest r.1 with
              | .ok rr => .ok (rr.1, r.2 ++ rr.2)
              | .error e => .error e
      | _, _ => .error "invalid tierA target count"
    | _ => .error "corridors.geojson contains non-LineString geometry"

/-- Tier-A `main` (lines 154-237): abort on empty inputs, keep the existing
non-Tier-A sites, seed from corridors starting at `seq = 1`, and write
`kept + seeded`. -/
def seed_tiera_main {α : Type} [LinearOrderedField α]
    (segLen : α × α → α × α → α) (corridors hexes : List (Feature α))
    (existing : List (SiteFeature α)) : Except String (List (SiteFeature α)) :=
  if corridors.isEmpty then .error "No corridor features found"
  else if hexes.isEmpty then .error "No hex features found"
  else
    let kept := existing.filter (fun f => !(f.props "tier" == some (.str "A")))
    let idx := _build_hex_index hexes
    match seed_corridors idx segLen corridors 1 with
    | .ok r => .ok (kept ++ r.2)
    | .error e => .error e

/-! ### Tier-B seeding (`seed_tierb_sites.py`) -/

/-- Source `REPLACE_SITES_FILE` (line 29): the shipped mode replaces
`sites.geojson` with only the seeded Tier-B candidates. -/
def REPLACE_SITES_FILE : Bool := true

/-- Source `_polygon_area(ring)` (lines 52-59): shoelace over
`zip(points, points[1:] + points[:1])`, halved absolute value. -/
def _polygon_area {α : Type} [LinearOrderedField α] (pts : List (α × α)) : α :=
  if pts.length < 3 then 0
  else |((pts.zip (pts.rotate 1)).map
         (fun pr => pr.1.1 * pr.2.2 - pr.2.1 * pr.1.2)).sum| / 2

/-- Source `_centroid_from_ring(ring)` (lines 62-66): vertex mean excluding
the closing duplicate.  A ring with at most one vertex is a
`ZeroDivisionError` in the source; division by zero yields `(0, 0)` here. -/
def _centroid_from_ring {α : Type} [LinearOrderedField α]
    (ring : List (α × α)) : α × α :=
  let core := ring.dropLast
  ((core.map Prod.fst).sum / (core.length : α),
   (core.map Prod.snd).sum / (core.length : α))

/-- Source `_get_centroid(geom)` (lines 69-78): Polygon uses its outer ring;
MultiPolygon uses the polygon with the largest outer-ring area (Python's
`max` keeps the first maximum); anything else is a `SystemExit`.  The
`coords[0]` of an empty coordinate list is an `IndexError` in the source,
approximated by the empty ring. -/
def _get_centroid {α : Type} [LinearOrderedField α] :
    Geom α → Except String (α × α)
  | .polygon rings => .ok (_centroid_from_ring (rings.headD []))
  | .multiPolygon polys =>
    match polys with
    | [] => .error "max() arg is an empty sequence"
    | p0 :: rest =>
      let area := fun (p : List (List (α × α))) => _polygon_area ((p.headD []).dropLast)
      let largest := rest.foldl (fun best p => if area best < area p then p else best) p0
      .ok (_centroid_from_ring (largest.headD []))
  | _ => .error "Unsupported geometry type for hex"

/-- Source `_candidate_points(lon, lat, n)` (lines 81-106): deterministic
tiny grid offsets; `n ≤ 1` yields the centroid itself. -/
def _candidate_points {α : Type} [LinearOrderedField α]
    (lon lat : α) (n : ℤ) : List (α × α) :=
  if n ≤ 1 then [(lon, lat)]
  else
    let step : α := 3 / 10000
    let base : List (ℤ × ℤ) :=
      [(-1, -1), (0, -1), (1, -1), (-1, 0), (0, 0), (1, 0), (-1, 1), (0, 1), (1, 1)]
    (base.take (min n.toNat 9)).map
        (fun d => (lon + (d.1 : α) * step, lat + (d.2 : α) * step)) ++
      (List.range' 9 (n.toNat - 9)).map
        (fun (i : ℕ) => (lon + ((i : α) - 9 + 1) * step, lat))

/-- Source `_next_site_seq(existing_features)` (lines 109-117): one more
than the largest numeric tail of an `S_B_`-prefixed string site id. -/
def _next_site_seq {α : Type} (existing : List (SiteFeature α)) : ℕ :=
  (existing.foldl (fun m f =>
    match f.props "site_id" with
    | some (.str s) =>
      if s.startsWith "S_B_" then
        match ((s.splitOn "_").getLastD "").toNat? with
        | some t => max m t
        | none => m
      else m
    | _ => m) 0) + 1

/-- Tier-B site id `f"S_B_\x7bseq:04d\x7d"` (lines 120-121). -/
def site_id_b (seq : ℕ) : String := "S_B_" ++ zfill4 seq

/-- The properties dictionary of a seeded Tier-B site (lines 176-183,
spreading `DEFAULT_SITE_FIELDS` from lines 31-39; note `corridor_id` is an
explicit `None`). -/
def tierb_site_props (seq : ℕ) (cell_id zone_id : JVal) (i : ℕ)
    (is_alt : Bool) : Props := fun k =>
  if k = "site_id" then some (.str (site_id_b seq))
  else if k = "site_name" then
    some (.str ("Tier B " ++ py_str cell_id ++ " #" ++ zfill2 (i + 1)))
  else if k = "cell_id" then some cell_id
  else if k = "zone_id" then some zone_id
  else if k = "tier" then some (.str "B")
  else if k = "status" then some (.str "CANDIDATE")
  else if k = "site_class" then some (.str "OTHER")
  else if k = "access_class" then some (.str "MODERATE")
  else if k = "power_class" then some (.str "UNKNOWN")
  else if k = "risk_lightning" then some (.str "UNKNOWN")
  else if k = "corridor_id" then some .null
  else if k = "notes" then some (.str (if is_alt then "ALT" else ""))
  else none

/-- The inner point loop of Tier-B `main` (lines 169-191): every sampled
candidate point becomes a site, `seq` advancing by one each time. -/
def seed_hex_points {α : Type} [LinearOrderedField α]
    (cell_id zone_id : JVal) (pts : List (α × α)) (required : ℤ) :
    List ℕ → ℕ → ℕ × List (SiteFeature α)
  | [], seq => (seq, [])
  | i :: rest, seq =>
    let pt := pts.getD i (0, 0)
    let site : SiteFeature α :=
      ⟨pt, tierb_site_props seq cell_id zone_id i (required ≤ (i : ℤ))⟩
    let r := seed_hex_points cell_id zone_id pts required rest (seq + 1)
    (r.1, site :: r.2)

/-- The hex loop of Tier-B `main` (lines 142-191): per hex, resolve the id
chain and `zone_id` (aborting when either "is None"), extract the required
and alternate counts with `int(... or 0)`, skip when the total is exactly
zero, otherwise place `total` candidate points around the centroid.  (The
per-zone CSV rollup does not touch the sites collection and is not
modelled.) -/
def seed_tierb_hexes {α : Type} [LinearOrderedField α] :
    List (Feature α) → ℕ → Except String (ℕ × List (SiteFeature α))
  | [], seq => .ok (seq, [])
  | h :: rest, seq =>
    match feature_cell_id_chain h.props with
    | none => .error "Hex feature missing cell_id"
    | some cell_id =>
      if cell_id = .null then .error "Hex feature missing cell_id"
      else
        match h.props "zone_id" with
        | none => .error "Hex missing zone_id"
        | some zone_id =>
          if zone_id = .null then .error "Hex missing zone_id"
          else
            match py_int_or0 (h.props "tierB_sites_required"),
                  py_int_or0 (h.props "tierB_alternate_required") with
            | some req, some alt =>
              let total := req + alt
              if total = 0 then seed_tierb_hexes rest seq
              else
                match _get_centroid h.geometry with
                | .error e => .error e
                | .ok c =>
                  let pts := _candidate_points c.1 c.2 total
                  let r := seed_hex_points cell_id zone_id pts req
                    (List.range total.toNat) seq
                  match seed_tierb_hexes rest r.1 with
                  | .ok rr => .ok (rr.1, r.2 ++ rr.2)
                  | .error e => .error e
            | _, _ => .error "invalid tierB count"

/-- Tier-B `main` (lines 124-194): abort on an empty hex collection; under
the shipped `REPLACE_SITES_FILE = True` the kept list is empty, the sequence
starts at 1, and the output is `kept + seeded`. -/
def seed_tierb_main {α : Type} [LinearOrderedField α]
    (hexes : List (Feature α)) (existing : List (SiteFeature α)) :
    Except String (List (SiteFeature α)) :=
  if hexes.isEmpty then .error "No hex features found"
  else
    let kept := if REPLACE_SITES_FILE then [] else existing
    let seq0 := if kept.isEmpty then 1 else _next_site_seq kept
    match seed_tierb_hexes hexes seq0 with
    | .ok r => .ok (kept ++ r.2)
    | .error e => .error e

/-! ### Concrete property dictionaries used by theorems and witnesses -/

/-- A cell properties dictionary carrying exactly the four integer-valued
suitability flags. -/
def flag_props (e t c l : ℤ) : Props := fun k =>
  if k = "elev_adv_avail" then some (.num (e : ℚ))
  else if k = "tall_struct_avail" then some (.num (t : ℚ))
  else if k = "clutter_high" then some (.num (c : ℚ))
  else if k = "backbone_los_likely" then some (.num (l : ℚ))
  else none

/-- A cell in the west zone whose `pop_weight` is the blank string `""`
(and everything else absent). -/
def west_blank_weight_props : Props := fun k =>
  if k = "zone_id" then some (.str "Z_WEST_HIGH_RELIEF")
  else if k = "pop_weight" then some (.str "") else none

/-! ### Lemmas: scoring -/

theorem int_of_jval_intCast (m : ℤ) : int_of_jval (.num (m : ℚ)) = some m := by
  simp [int_of_jval, Rat.num_intCast, Rat.den_intCast, Int.tdiv_one]

theorem clamp_eq_min_max (x : ℤ) : clamp x 0 100 = min 100 (max 0 x) := by
  unfold clamp; split_ifs <;> omega

theorem score_flag_props (e t c l : ℤ) :
    compute_confidence_score (flag_props e t c l) =
      some (clamp (25 * l + 20 * e + 20 * t + 15 * (1 - c)) 0 100) := by
  have h1 : (flag_props e t c l).get0 "elev_adv_avail" = JVal.num (e : ℚ) := rfl
  have h2 : (flag_props e t c l).get0 "tall_struct_avail" = JVal.num (t : ℚ) := rfl
  have h3 : (flag_props e t c l).get0 "clutter_high" = JVal.num (c : ℚ) := rfl
  have h4 : (flag_props e t c l).get0 "backbone_los_likely" = JVal.num (l : ℚ) := rfl
  rw [compute_confidence_score, h1, h2, h3, h4, int_of_jval_intCast,
    int_of_jval_intCast, int_of_jval_intCast, int_of_jval_intCast]
  rfl

/-- C3: for every cell, `confidence_score` is
`25·los + 20·elev + 20·tall + 15·(1−clutter)` clamped to [0, 100]; the
all-favourable input scores exactly 80 (the attainable maximum over 0/1
flags) and the all-unfavourable input scores exactly 0; and
`confidence_class` is HIGH iff the score is ≥ 70, MED iff it is in [40, 70),
and LOW otherwise. -/
theorem claim_c3 :
    (∀ e t c l : ℤ,
      compute_confidence_score (flag_props e t c l) =
        some (min 100 (max 0 (25 * l + 20 * e + 20 * t + 15 * (1 - c))))) ∧
    compute_confidence_score (flag_props 1 1 0 1) = some 80 ∧
    compute_confidence_score (flag_props 0 0 1 0) = some 0 ∧
    (∀ e t c l s : ℤ, (e = 0 ∨ e = 1) → (t = 0 ∨ t = 1) → (c = 0 ∨ c = 1) →
      (l = 0 ∨ l = 1) →
      compute_confidence_score (flag_props e t c l) = some s → s ≤ 80) ∧
    (∀ s : ℤ, (confidence_class s = "HIGH" ↔ 70 ≤ s) ∧
      (confidence_class s = "MED" ↔ 40 ≤ s ∧ s < 70) ∧
      (confidence_class s = "LOW" ↔ s < 40)) := by
  refine ⟨fun e t c l => ?_, by decide, by decide, fun e t c l s he ht hc hl hs => ?_, fun s => ?_⟩
  · rw [score_flag_props, clamp_eq_min_max]
  · rw [score_flag_props] at hs
    rcases he with rfl | rfl <;> rcases ht with rfl | rfl <;>
      rcases hc with rfl | rfl <;> rcases hl with rfl | rfl <;>
      (rw [clamp_eq_min_max] at hs; injection hs with hs; omega)
  · unfold confidence_class
    split_ifs with h1 h2 <;> simp <;> omega

/-- Witness for C3 at concrete inputs: the maximum bound applied at the
all-favourable 0/1 flags, and the class thresholds at scores 80 and 39. -/
theorem claim_c3_witness :
    (80 : ℤ) ≤ 80 ∧ confidence_class 80 = "HIGH" ∧ confidence_class 39 = "LOW" :=
  ⟨claim_c3.2.2.2.1 1 1 0 1 80 (by decide) (by decide) (by decide) (by decide)
      (by decide),
    (claim_c3.2.2.2.2 80).1.mpr (by decide),
    (claim_c3.2.2.2.2 39).2.2.mpr (by decide)⟩

/-! ### C4: the scaffolding rule -/

/-- C4 as stated is refuted here: a Tier-assigned west-zone cell whose
`pop_weight` holds the blank string `""` is NOT filled from the zone default
table (the zone default would be 0.2); the scaffolding step leaves the blank
string in place, because the weight branch of the source only fills
missing-or-`None` values. -/
theorem claim_c4_counterexample :
    blank_bool (west_blank_weight_props "pop_weight") = true ∧
    ZONE_DEFAULTS (.str "Z_WEST_HIGH_RELIEF") "pop_weight" = 1/5 ∧
    scaffold_props west_blank_weight_props "pop_weight" = some (.str "") ∧
    scaffold_props west_blank_weight_props "pop_weight" ≠
      some (.num (ZONE_DEFAULTS (.str "Z_WEST_HIGH_RELIEF") "pop_weight")) := by
  refine ⟨rfl, by simp [ZONE_DEFAULTS, zone_row], rfl, ?_⟩
  intro h
  simp [scaffold_props, weightKeys, boolKeys, west_blank_weight_props, blank_weight] at h

/-- C4 (amended): scaffolding fills a suitability boolean exactly when it is
missing, `None`, or the blank string, and fills a weight exactly when it is
missing or `None` (a blank-string weight is left unchanged); an explicit
`0`/`0.0` is never overwritten, and every key outside the four flags and two
weights is left unchanged. -/
theorem claim_c4_amended :
    ∀ (p : Props) (k : String),
      (k ∈ boolKeys → blank_bool (p k) = true →
        scaffold_props p k =
          some (.num (ZONE_DEFAULTS ((p "zone_id").getD (.str "")) k))) ∧
      (k ∈ boolKeys → blank_bool (p k) = false → scaffold_props p k = p k) ∧
      (k ∈ weightKeys → blank_weight (p k) = true →
        scaffold_props p k =
          some (.num (ZONE_DEFAULTS ((p "zone_id").getD (.str "")) k))) ∧
      (k ∈ weightKeys → blank_weight (p k) = false → scaffold_props p k = p k) ∧
      (p k = some (.num 0) → scaffold_props p k = p k) ∧
      (k ∉ boolKeys → k ∉ weightKeys → scaffold_props p k = p k) := by
  intro p k
  have hdisj : k ∈ weightKeys → k ∉ boolKeys := by
    intro h; fin_cases h <;> decide
  refine ⟨fun hb hblank => ?_, fun hb hblank => ?_, fun hw hblank => ?_,
    fun hw hblank => ?_, fun hzero => ?_, fun hnb hnw => ?_⟩
  · simp only [scaffold_props, if_pos hb, hblank, if_true]
  · simp only [scaffold_props, if_pos hb, hblank, if_neg Bool.false_ne_true]
  · simp only [scaffold_props, if_neg (hdisj hw), if_pos hw, hblank, if_true]
  · simp only [scaffold_props, if_neg (hdisj hw), if_pos hw, hblank, if_neg Bool.false_ne_true]
  · by_cases hb : k ∈ boolKeys
    · have : blank_bool (p k) = false := by rw [hzero]; rfl
      simp only [scaffold_props, if_pos hb, this, if_neg Bool.false_ne_true]
    · by_cases hw : k ∈ weightKeys
      · have : blank_weight (p k) = false := by rw [hzero]; rfl
        simp only [scaffold_props, if_neg hb, if_pos hw, this, if_neg Bool.false_ne_true]
      · simp only [scaffold_props, if_neg hb, if_neg hw]
  · simp only [scaffold_props, if_neg hnb, if_neg hnw]

/-- Witness for C4 (amended) at a concrete cell: the missing
`critical_weight` of the west-zone cell is filled with the zone default, and
its blank-string `pop_weight` is left unchanged. -/
theorem claim_c4_witness :
    scaffold_props west_blank_weight_props "critical_weight" =
      some (.num (ZONE_DEFAULTS ((west_blank_weight_props "zone_id").getD
        (.str "")) "critical_weight")) ∧
    scaffold_props west_blank_weight_props "pop_weight" =
      west_blank_weight_props "pop_weight" :=
  ⟨(claim_c4_amended west_blank_weight_props "critical_weight").2.2.1
      (by decide) rfl,
    (claim_c4_amended west_blank_weight_props "pop_weight").2.2.2.1
      (by decide) rfl⟩

/-! ### C9: tessellator output is explicit zeros, so scaffolding is inert -/

/-- C9: every cell emitted by the tessellator carries explicit numeric `0`
flags and `0.0` weights; after any zone assignment, scaffolding leaves all
four flags and both weights unchanged, and the derived confidence score of
such a cell is 15 with class LOW. -/
theorem claim_c9 :
    ∀ (cid z k : String),
      (k ∈ boolKeys ∨ k ∈ weightKeys → tessellator_props cid k = some (.num 0)) ∧
      (k ∈ boolKeys ∨ k ∈ weightKeys →
        scaffold_props (set_zone (tessellator_props cid) z) k =
          set_zone (tessellator_props cid) z k) ∧
      compute_confidence_score
        (scaffold_props (set_zone (tessellator_props cid) z)) = some 15 ∧
      confidence_class 15 = "LOW" := by
  intro cid z k
  refine ⟨fun h => ?_, fun h => ?_, rfl, rfl⟩
  · rcases h with h | h <;> fin_cases h <;> rfl
  · rcases h with h | h <;> fin_cases h <;> rfl

/-- Witness for C9 at a concrete cell id, zone and key. -/
theorem claim_c9_witness :
    tessellator_props "H_000001" "pop_weight" = some (.num 0) ∧
    scaffold_props (set_zone (tessellator_props "H_000001") "Z_EAST_RIDGE_METRO")
        "pop_weight" =
      set_zone (tessellator_props "H_000001") "Z_EAST_RIDGE_METRO" "pop_weight" ∧
    compute_confidence_score
      (scaffold_props (set_zone (tessellator_props "H_000001")
        "Z_EAST_RIDGE_METRO")) = some 15 :=
  ⟨(claim_c9 "H_000001" "Z_EAST_RIDGE_METRO" "pop_weight").1 (Or.inr (by decide)),
    (claim_c9 "H_000001" "Z_EAST_RIDGE_METRO" "pop_weight").2.1 (Or.inr (by decide)),
    (claim_c9 "H_000001" "Z_EAST_RIDGE_METRO" "pop_weight").2.2.1⟩

/-! ### Lemmas: the coverage pass -/

/-- Equality of all site fields other than `status`, `satisfied_by` and
`satisfied_corridor_id` — the frame the pass must preserve. -/
def same_frame (s t : Site) : Prop :=
  t.tier = s.tier ∧ t.notes = s.notes ∧ t.cell_id = s.cell_id ∧
  t.zone_id = s.zone_id ∧ t.site_id = s.site_id ∧ t.corridor_id = s.corridor_id ∧
  t.geometry = s.geometry ∧ t.extra = s.extra

theorem same_frame_refl (s : Site) : same_frame s s :=
  ⟨rfl, rfl, rfl, rfl, rfl, rfl, rfl, rfl⟩

theorem same_frame_trans {s t u : Site} (h1 : same_frame s t)
    (h2 : same_frame t u) : same_frame s u := by
  obtain ⟨a1, a2, a3, a4, a5, a6, a7, a8⟩ := h1
  obtain ⟨b1, b2, b3, b4, b5, b6, b7, b8⟩ := h2
  exact ⟨b1.trans a1, b2.trans a2, b3.trans a3, b4.trans a4, b5.trans a5,
    b6.trans a6, b7.trans a7, b8.trans a8⟩

theorem coverage_step_frame (nm : NeighborMap) (a s : Site) :
    same_frame s (coverage_step nm a s) := by
  unfold coverage_step satisfy_with same_frame
  split <;> simp

theorem coverage_step_not_required (nm : NeighborMap) (a s : Site)
    (h : is_required_candidate s = false) : coverage_step nm a s = s := by
  unfold coverage_step
  rw [h]
  simp

theorem coverage_step_not_candidate (nm : NeighborMap) (a s : Site)
    (h : s.status ≠ some "CANDIDATE") : coverage_step nm a s = s := by
  apply coverage_step_not_required
  unfold is_required_candidate
  have : (s.status == some "CANDIDATE") = false := by
    simpa using h
  rw [this]
  simp

theorem coverage_step_cases (nm : NeighborMap) (a s : Site) :
    coverage_step nm a s = s ∨
      (s.status = some "CANDIDATE" ∧ coverage_step nm a s = satisfy_with a s) := by
  by_cases h : s.status = some "CANDIDATE"
  · unfold coverage_step
    split
    · exact Or.inr ⟨h, rfl⟩
    · exact Or.inl rfl
  · exact Or.inl (coverage_step_not_candidate nm a s h)

/-- The per-site view of the pass: fold one site through the Tier-A list. -/
def sat_fold (nm : NeighborMap) (as : List Site) (s : Site) : Site :=
  as.foldl (fun x a => coverage_step nm a x) s

theorem sat_fold_cons (nm : NeighborMap) (a : Site) (as : List Site) (s : Site) :
    sat_fold nm (a :: as) s = sat_fold nm as (coverage_step nm a s) := rfl

theorem sat_fold_not_candidate (nm : NeighborMap) (as : List Site) (s : Site)
    (h : s.status ≠ some "CANDIDATE") : sat_fold nm as s = s := by
  induction as with
  | nil => rfl
  | cons a as ih => rw [sat_fold_cons, coverage_step_not_candidate nm a s h]; exact ih

theorem sat_fold_transition (nm : NeighborMap) (as : List Site) (s : Site) :
    sat_fold nm as s = s ∨
      (s.status = some "CANDIDATE" ∧ (sat_fold nm as s).status = some "SATISFIED") := by
  induction as generalizing s with
  | nil => exact Or.inl rfl
  | cons a as ih =>
    rw [sat_fold_cons]
    rcases coverage_step_cases nm a s with h | ⟨hc, h⟩
    · rw [h]; exact ih s
    · rw [h, sat_fold_not_candidate nm as _ (by intro hx; simp [satisfy_with] at hx)]
      exact Or.inr ⟨hc, rfl⟩

theorem sat_fold_idem (nm : NeighborMap) (as : List Site) (s : Site) :
    sat_fold nm as (sat_fold nm as s) = sat_fold nm as s := by
  rcases sat_fold_transition nm as s with h | ⟨_, h⟩
  · rw [h]; exact h
  · exact sat_fold_not_candidate nm as _ (by rw [h]; intro hx; exact absurd hx (by decide))

theorem sat_fold_frame (nm : NeighborMap) (as : List Site) (s : Site) :
    same_frame s (sat_fold nm as s) := by
  induction as generalizing s with
  | nil => exact same_frame_refl s
  | cons a as ih =>
    rw [sat_fold_cons]
    exact same_frame_trans (coverage_step_frame nm a s) (ih (coverage_step nm a s))

theorem sat_fold_tier (nm : NeighborMap) (as : List Site) (s : Site) :
    (sat_fold nm as s).tier = s.tier :=
  (sat_fold_frame nm as s).1

theorem coverage_step_tierA (nm : NeighborMap) (a s : Site)
    (h : s.tier = some "A") : coverage_step nm a s = s := by
  apply coverage_step_not_required
  unfold is_required_candidate
  rw [h]
  rfl

theorem sat_fold_tierA (nm : NeighborMap) (as : List Site) (s : Site)
    (h : s.tier = some "A") : sat_fold nm as s = s := by
  induction as with
  | nil => rfl
  | cons a as ih => rw [sat_fold_cons, coverage_step_tierA nm a s h]; exact ih

theorem foldl_map_comm (nm : NeighborMap) (as : List Site) (l : List Site) :
    as.foldl (fun acc a => acc.map (coverage_step nm a)) l =
      l.map (sat_fold nm as) := by
  induction as generalizing l with
  | nil => exact (List.map_id' l).symm
  | cons a as ih =>
    simp only [List.foldl_cons, ih, List.map_map]
    rfl

theorem apply_pass_eq_map (nm : NeighborMap) (sites : List Site) :
    apply_tiera_pass nm sites = sites.map (sat_fold nm (tiera_features sites)) :=
  foldl_map_comm nm (tiera_features sites) sites

theorem filter_map_invariant (f : Site → Site) (p : Site → Bool)
    (hp : ∀ s, p (f s) = p s) (l : List Site) :
    (l.map f).filter p = (l.filter p).map f := by
  induction l with
  | nil => rfl
  | cons x xs ih =>
    simp only [List.map_cons, List.filter_cons, hp x]
    cases hpx : p x <;> simp [ih]

theorem tiera_features_pass (nm : NeighborMap) (sites : List Site) :
    tiera_features (apply_tiera_pass nm sites) = tiera_features sites := by
  rw [apply_pass_eq_map]
  unfold tiera_features
  rw [filter_map_invariant _ _ (fun s => by rw [sat_fold_tier])]
  apply List.map_congr_left ?_ |>.trans (List.map_id _)
  intro a ha
  exact sat_fold_tierA nm _ a (by simpa using (List.mem_filter.mp ha).2)

theorem getD_map_lt (f : Site → Site) (l : List Site) (j : ℕ)
    (h : j < l.length) (d : Site) : (l.map f).getD j d = f (l.getD j d) := by
  rw [List.getD_eq_getElem?_getD, List.getD_eq_getElem?_getD, List.getElem?_map,
    List.getElem?_eq_getElem h]
  rfl

/-! ### Concrete inputs for the coverage-pass claims -/

/-- Neighbor map: H1 covers H1,H2,H3; H7 covers H7,H3. -/
def c1_nm : NeighborMap := [("H1", ["H1", "H2", "H3"]), ("H7", ["H7", "H3"])]

/-- A Tier-A site in cell H1 on corridor C_01. -/
def c1_tiera : Site :=
  ⟨some "A", some "", some "CANDIDATE", some "H1", some "Z1", some "S_A_0001",
    some "C_01", none, none, "ptA1", []⟩

/-- A second Tier-A site in cell H7 on corridor C_02. -/
def c1_tiera2 : Site :=
  ⟨some "A", some "", some "CANDIDATE", some "H7", some "Z1", some "S_A_0002",
    some "C_02", none, none, "ptA2", []⟩

/-- An ALT-flagged Tier-B candidate in cell H1. -/
def c1_alt : Site :=
  ⟨some "B", some "ALT", some "CANDIDATE", some "H1", some "Z1", some "S_B_0009",
    none, none, none, "ptB9", []⟩

/-- A required Tier-B candidate in cell H3, covered by both Tier-A sites. -/
def c1_req : Site :=
  ⟨some "B", some "", some "CANDIDATE", some "H3", some "Z1", some "S_B_0001",
    none, none, none, "ptB1", []⟩


theorem sat_fold_first (nm : NeighborMap) (as : List Site) (s : Site)
    (hreq : is_required_candidate s = true) (a : Site)
    (hfind : first_coverer nm as (s.cell_id.getD "") = some a) :
    (sat_fold nm as s).status = some "SATISFIED" ∧
    (sat_fold nm as s).satisfied_by = a.site_id ∧
    (sat_fold nm as s).satisfied_corridor_id = a.corridor_id := by
  induction as with
  | nil => simp [first_coverer] at hfind
  | cons b as ih =>
    rw [sat_fold_cons]
    unfold first_coverer at hfind ih
    by_cases hb : (otruthy b.cell_id &&
        (covered_cells nm (b.cell_id.getD "")).contains (s.cell_id.getD "")) = true
    · rw [List.find?_cons, hb] at hfind
      have hba : b = a := Option.some.inj hfind
      subst hba
      have hstep : coverage_step nm b s = satisfy_with b s := by
        unfold coverage_step
        rw [if_pos]
        rw [Bool.and_eq_true] at hb
        rw [Bool.and_eq_true, Bool.and_eq_true]
        exact ⟨⟨hb.1, hreq⟩, hb.2⟩
      rw [hstep, sat_fold_not_candidate nm as _ (by intro hx; simp [satisfy_with] at hx)]
      exact ⟨rfl, rfl, rfl⟩
    · rw [Bool.not_eq_true] at hb
      rw [List.find?_cons, hb] at hfind
      have hstep : coverage_step nm b s = s := by
        unfold coverage_step
        rw [if_neg]
        intro hcond
        rw [Bool.and_eq_true, Bool.and_eq_true] at hcond
        obtain ⟨⟨ho, _⟩, hc⟩ := hcond
        rw [ho, hc] at hb
        exact absurd hb (by decide)
      rw [hstep]
      exact ih hfind

/-- C1 as stated is refuted here: an `ALT`-flagged Tier-B site whose status
is CANDIDATE and whose home cell is inside the coverage set of a Tier-A site
is NOT satisfied by the pass — the source excludes `notes == "ALT"` features
from the candidate index — so "for every Tier-B site whose status is
CANDIDATE …" fails at this input. -/
theorem claim_c1_counterexample :
    first_coverer c1_nm (tiera_features [c1_tiera, c1_alt])
        ((c1_alt).cell_id.getD "") = some c1_tiera ∧
    is_tierb_alt c1_alt = true ∧
    c1_alt.status = some "CANDIDATE" ∧
    ((apply_tiera_pass c1_nm [c1_tiera, c1_alt]).getD 1 default_site).status =
      some "CANDIDATE" ∧
    ((apply_tiera_pass c1_nm [c1_tiera, c1_alt]).getD 1 default_site).status ≠
      some "SATISFIED" := by
  refine ⟨?_, rfl, rfl, ?_, ?_⟩ <;> decide

/-- C1 (amended): for every *required* (non-ALT) Tier-B site with a truthy
home cell that is still CANDIDATE, if any Tier-A site's coverage set
(`neighbor_map.get(cell,-fallback-)`) contains its home cell, the pass marks
it SATISFIED and records the `site_id` and `corridor_id` of the FIRST such
Tier-A site in input order (first writer wins). -/
theorem claim_c1_amended :
    ∀ (nm : NeighborMap) (sites : List Site) (j : ℕ),
      j < sites.length →
      is_required_candidate (sites.getD j default_site) = true →
      ∀ a, first_coverer nm (tiera_features sites)
          ((sites.getD j default_site).cell_id.getD "") = some a →
        ((apply_tiera_pass nm sites).getD j default_site).status = some "SATISFIED" ∧
        ((apply_tiera_pass nm sites).getD j default_site).satisfied_by = a.site_id ∧
        ((apply_tiera_pass nm sites).getD j default_site).satisfied_corridor_id =
          a.corridor_id := by
  intro nm sites j hj hreq a hfind
  rw [apply_pass_eq_map, getD_map_lt _ _ _ hj]
  exact sat_fold_first nm (tiera_features sites) _ hreq a hfind

/-- Witness for C1 (amended): two Tier-A sites cover the candidate's cell;
the pass records the first one in input order. -/
theorem claim_c1_witness :
    ((apply_tiera_pass c1_nm [c1_tiera, c1_tiera2, c1_req]).getD 2
        default_site).status = some "SATISFIED" ∧
    ((apply_tiera_pass c1_nm [c1_tiera, c1_tiera2, c1_req]).getD 2
        default_site).satisfied_by = some "S_A_0001" ∧
    ((apply_tiera_pass c1_nm [c1_tiera, c1_tiera2, c1_req]).getD 2
        default_site).satisfied_corridor_id = some "C_01" := by
  have h := claim_c1_amended c1_nm [c1_tiera, c1_tiera2, c1_req] 2 (by decide)
    (by decide) c1_tiera (by decide)
  exact ⟨h.1, h.2.1, h.2.2⟩

/-- C5: the coverage pass is idempotent — running it a second time on its
own output changes no site (already-SATISFIED candidates are skipped and
never rewritten), and the per-zone rollup counts of the second run equal the
first run's. -/
theorem claim_c5 :
    ∀ (nm : NeighborMap) (sites : List Site),
      apply_tiera_pass nm (apply_tiera_pass nm sites) = apply_tiera_pass nm sites ∧
      ∀ z, zone_rollup (apply_tiera_pass nm (apply_tiera_pass nm sites)) z =
        zone_rollup (apply_tiera_pass nm sites) z := by
  intro nm sites
  have key : apply_tiera_pass nm (apply_tiera_pass nm sites) =
      apply_tiera_pass nm sites := by
    rw [apply_pass_eq_map nm (apply_tiera_pass nm sites), tiera_features_pass,
      apply_pass_eq_map nm sites, List.map_map]
    apply List.map_congr_left
    intro s _
    exact sat_fold_idem nm (tiera_features sites) s
  exact ⟨key, fun z => by rw [key]⟩

/-- C7: the coverage pass preserves the length of the sites collection and,
per site, every field other than `status`, `satisfied_by` and
`satisfied_corridor_id` (including geometry and all remaining properties);
each site is either left entirely unchanged or transitions
CANDIDATE → SATISFIED (never the reverse); and Tier-A features are left
entirely unchanged.  The hex-cell collection enters the pass only through
the read-only neighbor map `nm`. -/
theorem claim_c7 :
    ∀ (nm : NeighborMap) (sites : List Site),
      (apply_tiera_pass nm sites).length = sites.length ∧
      ∀ j, j < sites.length →
        same_frame (sites.getD j default_site)
          ((apply_tiera_pass nm sites).getD j default_site) ∧
        ((apply_tiera_pass nm sites).getD j default_site = sites.getD j default_site ∨
          ((sites.getD j default_site).status = some "CANDIDATE" ∧
            ((apply_tiera_pass nm sites).getD j default_site).status =
              some "SATISFIED")) ∧
        ((sites.getD j default_site).tier = some "A" →
          (apply_tiera_pass nm sites).getD j default_site =
            sites.getD j default_site) := by
  intro nm sites
  constructor
  · rw [apply_pass_eq_map]; exact List.length_map _ _
  · intro j hj
    rw [apply_pass_eq_map, getD_map_lt _ _ _ hj]
    exact ⟨sat_fold_frame nm _ _, sat_fold_transition nm _ _,
      fun hA => sat_fold_tierA nm _ _ hA⟩

/-- Witness for C7: the ALT candidate of the C1 counterexample input is left
entirely unchanged by the pass, and the Tier-A feature likewise. -/
theorem claim_c7_witness :
    same_frame (([c1_tiera, c1_alt] : List Site).getD 1 default_site)
      ((apply_tiera_pass c1_nm [c1_tiera, c1_alt]).getD 1 default_site) ∧
    (apply_tiera_pass c1_nm [c1_tiera, c1_alt]).getD 0 default_site =
      ([c1_tiera, c1_alt] : List Site).getD 0 default_site := by
  have h := claim_c7 c1_nm [c1_tiera, c1_alt]
  exact ⟨(h.2 1 (by decide)).1, (h.2 0 (by decide)).2.2 (by decide)⟩

/-! ### Concrete hex features for the adjacency claim -/

/-- Triangle sharing vertex (1, 0) with `c6_hex2`. -/
def c6_hex1 : HexFeature ℚ :=
  ⟨some "H1", .polygon [[(0, 0), (1, 0), (1, 1), (0, 0)]]⟩

/-- Triangle sharing vertex (1, 0) with `c6_hex1`. -/
def c6_hex2 : HexFeature ℚ :=
  ⟨some "H2", .polygon [[(1, 0), (2, 0), (2, 1), (1, 0)]]⟩

/-- A triangle far from the other two. -/
def c6_hex3 : HexFeature ℚ :=
  ⟨some "H3", .polygon [[(5, 5), (6, 5), (6, 6), (5, 5)]]⟩


/-! ### Lemmas: the adjacency index -/

theorem mem_vertex_to_cells {α : Type} [DecidableEq α] (fs : List (HexFeature α))
    (v : α × α) (c : String) :
    c ∈ vertex_to_cells fs v ↔
      ∃ f ∈ fs, otruthy f.cell_id = true ∧ f.cell_id.getD "" = c ∧
        v ∈ verts_of f := by
  unfold vertex_to_cells
  suffices h : ∀ acc : Finset String,
      c ∈ fs.foldl (fun acc f =>
          if otruthy f.cell_id = true ∧ v ∈ verts_of f
          then insert (f.cell_id.getD "") acc else acc) acc ↔
        c ∈ acc ∨ ∃ f ∈ fs, otruthy f.cell_id = true ∧ f.cell_id.getD "" = c ∧
          v ∈ verts_of f by
    rw [h ∅]; simp
  induction fs with
  | nil => intro acc; simp
  | cons f fs ih =>
    intro acc
    rw [List.foldl_cons]
    by_cases hP : otruthy f.cell_id = true ∧ v ∈ verts_of f
    · rw [if_pos hP, ih (insert (f.cell_id.getD "") acc)]
      constructor
      · rintro (hc | ⟨g, hg, hgp⟩)
        · rcases Finset.mem_insert.mp hc with hc | hc
          · exact Or.inr ⟨f, List.mem_cons_self f fs, hP.1, hc.symm, hP.2⟩
          · exact Or.inl hc
        · exact Or.inr ⟨g, List.mem_cons_of_mem f hg, hgp⟩
      · rintro (hc | ⟨g, hg, h1, h2, h3⟩)
        · exact Or.inl (Finset.mem_insert_of_mem hc)
        · rcases List.mem_cons.mp hg with rfl | hg
          · exact Or.inl (Finset.mem_insert.mpr (Or.inl h2.symm))
          · exact Or.inr ⟨g, hg, h1, h2, h3⟩
    · rw [if_neg hP, ih acc]
      constructor
      · rintro (hc | ⟨g, hg, hgp⟩)
        · exact Or.inl hc
        · exact Or.inr ⟨g, List.mem_cons_of_mem f hg, hgp⟩
      · rintro (hc | ⟨g, hg, h1, h2, h3⟩)
        · exact Or.inl hc
        · rcases List.mem_cons.mp hg with rfl | hg
          · exact absurd ⟨h1, h3⟩ hP
          · exact Or.inr ⟨g, hg, h1, h2, h3⟩

theorem mem_neighbor_set {α : Type} [DecidableEq α] (fs : List (HexFeature α))
    (c B : String) :
    B ∈ neighbor_set fs c ↔
      ∃ vs, cell_vertices fs c = some vs ∧
        ∃ v ∈ vs, B ∈ vertex_to_cells fs v := by
  unfold neighbor_set
  cases hcv : cell_vertices fs c with
  | none => simp
  | some vs =>
    simp only [hcv, Option.some.injEq]
    suffices h : ∀ acc : Finset String,
        B ∈ vs.foldl (fun acc v => acc ∪ vertex_to_cells fs v) acc ↔
          B ∈ acc ∨ ∃ v ∈ vs, B ∈ vertex_to_cells fs v by
      rw [h ∅]
      constructor
      · rintro (hB | hB)
        · simp at hB
        · exact ⟨vs, rfl, hB⟩
      · rintro ⟨vs2, hvs2, hex⟩
        obtain rfl : vs = vs2 := hvs2
        exact Or.inr hex
    clear hcv
    induction vs with
    | nil => intro acc; simp
    | cons v vs ih =>
      intro acc
      rw [List.foldl_cons, ih (acc ∪ vertex_to_cells fs v)]
      constructor
      · rintro (hc | ⟨w, hw, hwp⟩)
        · rcases Finset.mem_union.mp hc with hc | hc
          · exact Or.inl hc
          · exact Or.inr ⟨v, List.mem_cons_self v vs, hc⟩
        · exact Or.inr ⟨w, List.mem_cons_of_mem v hw, hwp⟩
      · rintro (hc | ⟨w, hw, hwp⟩)
        · exact Or.inl (Finset.mem_union_left _ hc)
        · rcases List.mem_cons.mp hw with rfl | hw
          · exact Or.inl (Finset.mem_union_right _ hwp)
          · exact Or.inr ⟨w, hw, hwp⟩

theorem hex_ids_cons {α : Type} (x : HexFeature α) (xs : List (HexFeature α)) :
    hex_ids (x :: xs) =
      if otruthy x.cell_id then x.cell_id.getD "" :: hex_ids xs else hex_ids xs := by
  unfold hex_ids
  rw [List.filter_cons]
  split <;> simp

theorem filter_by_id_len_le_one {α : Type} (l : List (HexFeature α))
    (hnd : (hex_ids l).Nodup) (c : String) :
    (l.filter (fun g => otruthy g.cell_id && g.cell_id.getD "" == c)).length ≤ 1 := by
  induction l with
  | nil => simp
  | cons x xs ih =>
    rw [hex_ids_cons] at hnd
    rw [List.filter_cons]
    split
    · rename_i hx
      rw [Bool.and_eq_true, beq_iff_eq] at hx
      rw [if_pos hx.1, List.nodup_cons] at hnd
      have hempty : xs.filter (fun g => otruthy g.cell_id && g.cell_id.getD "" == c) = [] := by
        rw [List.filter_eq_nil_iff]
        intro g hg hgc
        rw [Bool.and_eq_true, beq_iff_eq] at hgc
        apply hnd.1
        rw [hx.2, ← hgc.2]
        unfold hex_ids
        exact List.mem_map_of_mem _ (List.mem_filter.mpr ⟨hg, hgc.1⟩)
      simp [hempty]
    · split at hnd
      · exact ih (List.nodup_cons.mp hnd).2
      · exact ih hnd

theorem cell_vertices_of_mem {α : Type} (fs : List (HexFeature α))
    (hnd : (hex_ids fs).Nodup) (f : HexFeature α) (hf : f ∈ fs)
    (ht : otruthy f.cell_id = true) :
    cell_vertices fs (f.cell_id.getD "") = some (verts_of f) := by
  unfold cell_vertices
  have hmem : f ∈ fs.filter (fun g =>
      otruthy g.cell_id && g.cell_id.getD "" == f.cell_id.getD "") :=
    List.mem_filter.mpr ⟨hf, by rw [ht]; simp⟩
  have hlen := filter_by_id_len_le_one fs hnd (f.cell_id.getD "")
  match hl : fs.filter (fun g =>
      otruthy g.cell_id && g.cell_id.getD "" == f.cell_id.getD "") with
  | [] => rw [hl] at hmem; simp at hmem
  | [x] =>
    rw [hl] at hmem
    obtain rfl : f = x := by simpa using hmem
    rw [hl]
    rfl
  | x :: y :: rest => rw [hl] at hlen; simp at hlen

theorem cell_vertices_inv {α : Type} (fs : List (HexFeature α)) (c : String)
    (vs : List (α × α)) (h : cell_vertices fs c = some vs) :
    ∃ f ∈ fs, otruthy f.cell_id = true ∧ f.cell_id.getD "" = c ∧
      verts_of f = vs := by
  unfold cell_vertices at h
  cases hl : (fs.filter (fun g => otruthy g.cell_id && g.cell_id.getD "" == c)).getLast? with
  | none => rw [hl] at h; simp at h
  | some f =>
    rw [hl] at h
    obtain rfl : verts_of f = vs := by simpa using h
    have hfmem := List.mem_of_mem_getLast? hl
    have := List.mem_filter.mp hfmem
    refine ⟨f, this.1, ?_, ?_, rfl⟩
    · have hb := this.2
      rw [Bool.and_eq_true] at hb
      exact hb.1
    · have hb := this.2
      rw [Bool.and_eq_true, beq_iff_eq] at hb
      exact hb.2

/-- C6: the neighbor map built by `build_neighbor_map` is symmetric (under
the data-model invariant that truthy cell ids are unique) and reflexive:
whenever `B` is in `A`'s neighbor set, `A` is in `B`'s, and every cell whose
geometry contributes at least one vertex is in its own neighbor set. -/
theorem claim_c6 :
    ∀ {α : Type} [DecidableEq α] (fs : List (HexFeature α)),
      (hex_ids fs).Nodup →
      (∀ A B, B ∈ neighbor_set fs A → A ∈ neighbor_set fs B) ∧
      (∀ c vs, cell_vertices fs c = some vs → vs ≠ [] →
        c ∈ neighbor_set fs c) := by
  intro α _ fs hnd
  constructor
  · intro A B hB
    obtain ⟨vsA, hvsA, v, hv, hBv⟩ := (mem_neighbor_set fs A B).mp hB
    obtain ⟨fA, hfA, htA, hidA, hvertsA⟩ := cell_vertices_inv fs A vsA hvsA
    obtain ⟨fB, hfB, htB, hidB, hvB⟩ := (mem_vertex_to_cells fs v B).mp hBv
    have hcvB : cell_vertices fs B = some (verts_of fB) := by
      rw [← hidB]
      exact cell_vertices_of_mem fs hnd fB hfB htB
    refine (mem_neighbor_set fs B A).mpr ⟨verts_of fB, hcvB, v, hvB, ?_⟩
    exact (mem_vertex_to_cells fs v A).mpr
      ⟨fA, hfA, htA, hidA, by rw [hvertsA]; exact hv⟩
  · intro c vs hcv hne
    obtain ⟨f, hf, ht, hid, hverts⟩ := cell_vertices_inv fs c vs hcv
    obtain ⟨v, hv⟩ := List.exists_mem_of_ne_nil vs hne
    refine (mem_neighbor_set fs c c).mpr ⟨vs, hcv, v, hv, ?_⟩
    exact (mem_vertex_to_cells fs v c).mpr
      ⟨f, hf, ht, hid, by rw [hverts]; exact hv⟩

/-- Witness for C6 at three concrete cells, two sharing a vertex. -/
theorem claim_c6_witness :
    "H1" ∈ neighbor_set [c6_hex1, c6_hex2, c6_hex3] "H2" ∧
    "H1" ∈ neighbor_set [c6_hex1, c6_hex2, c6_hex3] "H1" := by
  have h := claim_c6 [c6_hex1, c6_hex2, c6_hex3] (by decide)
  exact ⟨h.1 "H1" "H2" (by decide), h.2 "H1" [(0, 0), (1, 0), (1, 1), (0, 0)]
    (by decide) (by decide)⟩

/-! ### Lemmas: the corridor sampler over the real metric -/

/-- A straight north-south 10-mile line: 10/69 degrees of latitude at a
fixed longitude. -/
noncomputable def line10mi : List (ℝ × ℝ) := [(0, 0), (0, 10/69)]

/-- A degenerate (zero-length) line. -/
noncomputable def line0mi : List (ℝ × ℝ) := [(1, 2), (1, 2)]

theorem segment_len_vertical (lon y1 y2 : ℝ) :
    _segment_len_mi (lon, y1) (lon, y2) = |y2 - y1| * 69 := by
  unfold _segment_len_mi _deg_to_miles_lon _deg_to_miles_lat
  simp only [sub_self, zero_mul, mul_zero, zero_add]
  rw [Real.sqrt_mul_self_eq_abs, abs_mul]
  norm_num

theorem seg_L10 : _segment_len_mi ((0 : ℝ), (0 : ℝ)) (0, 10/69) = 10 := by
  rw [segment_len_vertical]
  rw [abs_of_nonneg (by norm_num)]
  norm_num

theorem len_L10 : _line_length_mi _segment_len_mi line10mi = 10 := by
  show _segment_len_mi ((0 : ℝ), (0 : ℝ)) (0, 10/69) +
    _line_length_mi _segment_len_mi [((0 : ℝ), (10 : ℝ)/69)] = 10
  rw [seg_L10]
  norm_num [_line_length_mi]

theorem segment_len_nonneg (a b : ℝ × ℝ) : 0 ≤ _segment_len_mi a b :=
  Real.sqrt_nonneg _

theorem line_length_nonneg (coords : List (ℝ × ℝ)) :
    0 ≤ _line_length_mi _segment_len_mi coords := by
  induction coords with
  | nil => norm_num [_line_length_mi]
  | cons a rest ih =>
    cases rest with
    | nil => norm_num [_line_length_mi]
    | cons b r =>
      show 0 ≤ _segment_len_mi a b + _line_length_mi _segment_len_mi (b :: r)
      exact add_nonneg (segment_len_nonneg a b) ih

theorem point_at_distance_zero (c : ℝ × ℝ) (rest : List (ℝ × ℝ)) :
    _point_at_distance _segment_len_mi (c :: rest) 0 = c := by
  cases rest with
  | nil => rfl
  | cons b r =>
    show _point_at_distance_walk _segment_len_mi (c :: b :: r) 0 0 = c
    rw [_point_at_distance_walk]
    rw [if_pos (by simpa using segment_len_nonneg c b)]
    have ht : (if _segment_len_mi c b = 0 then (0 : ℝ)
        else (0 - 0) / _segment_len_mi c b) = 0 := by
      split <;> simp
    rw [ht]
    unfold _interpolate_on_segment
    simp

theorem sample_zero (coords : List (ℝ × ℝ)) :
    _sample_points_along_line _segment_len_mi coords 0 = [] := rfl

theorem sample_one (coords : List (ℝ × ℝ)) :
    _sample_points_along_line _segment_len_mi coords 1 =
      [_point_at_distance _segment_len_mi coords
        (_line_length_mi _segment_len_mi coords / 2)] := rfl

theorem sample_interior (coords : List (ℝ × ℝ)) (n : ℕ) (hn : 1 < n)
    (hpos : 0 < _line_length_mi _segment_len_mi coords) :
    (_sample_points_along_line _segment_len_mi coords n).length = n ∧
    ∀ i, i < n →
      (_sample_points_along_line _segment_len_mi coords n).getD i (0, 0) =
        _point_at_distance _segment_len_mi coords
          (_line_length_mi _segment_len_mi coords *
            (((i : ℝ) + 1) / ((n : ℝ) + 1))) := by
  have hform : _sample_points_along_line _segment_len_mi coords n =
      (List.range' 1 n).map (fun (i : ℕ) =>
        _point_at_distance _segment_len_mi coords
          (_line_length_mi _segment_len_mi coords * ((i : ℝ) / ((n : ℝ) + 1)))) := by
    unfold _sample_points_along_line
    rw [if_neg (by omega), if_neg (by omega), if_neg (not_le.mpr hpos)]
  rw [hform]
  constructor
  · rw [List.length_map, List.length_range']
  · intro i hi
    rw [List.getD_eq_getElem?_getD, List.getElem?_map, List.getElem?_range' _ _
      (by omega)]
    simp only [Option.map_some', Option.getD_some]
    congr 1
    push_cast
    ring

theorem sample_degenerate (c : ℝ × ℝ) (rest : List (ℝ × ℝ)) (n : ℕ)
    (hn : 1 ≤ n) (hle : _line_length_mi _segment_len_mi (c :: rest) ≤ 0) :
    _sample_points_along_line _segment_len_mi (c :: rest) n =
      List.replicate n c := by
  have hzero : _line_length_mi _segment_len_mi (c :: rest) = 0 :=
    le_antisymm hle (line_length_nonneg _)
  by_cases hn1 : n = 1
  · subst hn1
    rw [sample_one, hzero]
    norm_num [point_at_distance_zero]
  · unfold _sample_points_along_line
    rw [if_neg (by omega), if_neg (by omega), if_pos hle]
    rfl

theorem pad_L10 (d : ℝ) (h1 : d ≤ 10) :
    _point_at_distance _segment_len_mi line10mi d = (0, d/69) := by
  show _point_at_distance_walk _segment_len_mi
    [((0 : ℝ), (0 : ℝ)), (0, 10/69)] d 0 = (0, d/69)
  rw [_point_at_distance_walk]
  simp only [seg_L10]
  rw [if_pos (by linarith)]
  rw [if_neg (by norm_num)]
  unfold _interpolate_on_segment
  simp only [Prod.mk.injEq]
  constructor <;> ring

/-- C2: the corridor sampler yields no points for `n = 0`; the single
half-arc-length point for `n = 1` (on the straight 10-mile line, the point
5 miles = 5/69 degrees from the start); for `n > 1` on a line of positive
length, exactly `n` points at arc-length fractions `i/(n+1)`, `i = 1..n`
(on the 10-mile line, the points at 2.5, 5.0 and 7.5 miles); and on a
polyline of non-positive total length, its first vertex repeated `n`
times. -/
theorem claim_c2 :
    (∀ coords : List (ℝ × ℝ),
      _sample_points_along_line _segment_len_mi coords 0 = []) ∧
    (∀ coords : List (ℝ × ℝ),
      _sample_points_along_line _segment_len_mi coords 1 =
        [_point_at_distance _segment_len_mi coords
          (_line_length_mi _segment_len_mi coords / 2)]) ∧
    (∀ (coords : List (ℝ × ℝ)) (n : ℕ), 1 < n →
      0 < _line_length_mi _segment_len_mi coords →
      (_sample_points_along_line _segment_len_mi coords n).length = n ∧
      ∀ i, i < n →
        (_sample_points_along_line _segment_len_mi coords n).getD i (0, 0) =
          _point_at_distance _segment_len_mi coords
            (_line_length_mi _segment_len_mi coords *
              (((i : ℝ) + 1) / ((n : ℝ) + 1)))) ∧
    (∀ (c : ℝ × ℝ) (rest : List (ℝ × ℝ)) (n : ℕ), 1 ≤ n →
      _line_length_mi _segment_len_mi (c :: rest) ≤ 0 →
      _sample_points_along_line _segment_len_mi (c :: rest) n =
        List.replicate n c) ∧
    _sample_points_along_line _segment_len_mi line10mi 1 = [(0, 5/69)] ∧
    _sample_points_along_line _segment_len_mi line10mi 3 =
      [(0, 2.5/69), (0, 5/69), (0, 7.5/69)] := by
  refine ⟨sample_zero, sample_one, sample_interior, sample_degenerate, ?_, ?_⟩
  · rw [sample_one, len_L10, show (10 : ℝ)/2 = 5 by norm_num,
      pad_L10 5 (by norm_num)]
  · have h := sample_interior line10mi 3 (by norm_num)
      (by rw [len_L10]; norm_num)
    have e0 := h.2 0 (by norm_num)
    have e1 := h.2 1 (by norm_num)
    have e2 := h.2 2 (by norm_num)
    rw [len_L10] at e0 e1 e2
    rw [pad_L10 _ (by norm_num)] at e0 e1 e2
    have hlen := h.1
    match hl : _sample_points_along_line _segment_len_mi line10mi 3 with
    | [p0, p1, p2] =>
      rw [hl] at e0 e1 e2
      simp only [List.getD_cons_zero, List.getD_cons_succ] at e0 e1 e2
      rw [e0, e1, e2]
      norm_num
    | [] => rw [hl] at hlen; simp at hlen
    | [p0] => rw [hl] at hlen; simp at hlen
    | [p0, p1] => rw [hl] at hlen; simp at hlen
    | p0 :: p1 :: p2 :: p3 :: rest => rw [hl] at hlen; simp at hlen

/-- Witness for C2: the interior-sampling part applied to the concrete
10-mile line with `n = 3`, and the degenerate part applied to a zero-length
line with `n = 2`. -/
theorem claim_c2_witness :
    (_sample_points_along_line _segment_len_mi line10mi 3).length = 3 ∧
    _sample_points_along_line _segment_len_mi line0mi 2 =
      List.replicate 2 ((1 : ℝ), (2 : ℝ)) :=
  ⟨(claim_c2.2.2.1 line10mi 3 (by norm_num) (by rw [len_L10]; norm_num)).1,
    claim_c2.2.2.2.1 (1, 2) [(1, 2)] 2 (by norm_num) (by
      show _segment_len_mi ((1 : ℝ), (2 : ℝ)) (1, 2) +
        _line_length_mi _segment_len_mi [((1 : ℝ), (2 : ℝ))] ≤ 0
      rw [segment_len_vertical]
      norm_num [_line_length_mi])⟩

/-! ### Concrete inputs for the Tier-A seeding claim -/

/-- A degenerate segment-length function for the executable witness (the
claim theorem holds for every such function, the source's real metric
included). -/
def c8_seglen : ℚ × ℚ → ℚ × ℚ → ℚ := fun _ _ => 0

/-- A well-formed corridor asking for 2 required + 1 alternate sites. -/
def c8_corridor : Feature ℚ :=
  ⟨(fun k =>
    if k = "corridor_id" then some (.str "C_01")
    else if k = "tierA_target_sites_min" then some (.num 2)
    else if k = "tierA_target_sites_max" then some (.num 3)
    else none), .lineString [(5, 5)]⟩

/-- A hex feature that is not a Polygon, so it never enters the hex index
and every sampled point misses. -/
def c8_badhex : Feature ℚ :=
  ⟨(fun k =>
    if k = "cell_id" then some (.str "H1")
    else if k = "zone_id" then some (.str "Z1")
    else none), .unsupported "Point"⟩

/-- A pre-existing non-Tier-A site that the pass keeps. -/
def c8_existing : SiteFeature ℚ :=
  ⟨(9, 9), fun k => if k = "tier" then some (.str "Q") else none⟩


/-! ### Lemmas: Tier-A seeding -/

/-- Geometry-type test used to state well-formedness of corridor inputs. -/
def Geom.isLineString {α : Type} : Geom α → Bool
  | .lineString _ => true
  | _ => false

theorem seed_points_spec {α : Type} [LinearOrderedField α]
    (idx : List (String × String × List (List (α × α)))) (cid : JVal)
    (pts : List (α × α)) (required : ℕ) (is : List ℕ) (seq : ℕ) :
    (seed_points idx cid pts required is seq).1 =
      seq + (seed_points idx cid pts required is seq).2.length ∧
    ∀ j, j < (seed_points idx cid pts required is seq).2.length →
      ((seed_points idx cid pts required is seq).2.getD j
          default_site_feature).props "site_id" =
        some (.str (site_id_a (seq + j))) := by
  induction is generalizing seq with
  | nil => exact ⟨rfl, by intro j hj; simp [seed_points] at hj⟩
  | cons i rest ih =>
    cases hfind : _find_hex_for_point (pts.getD i (0, 0)) idx with
    | none =>
      have heq : seed_points idx cid pts required (i :: rest) seq =
          seed_points idx cid pts required rest seq := by
        simp only [seed_points, hfind]
      rw [heq]
      exact ih seq
    | some cz =>
      have heq : seed_points idx cid pts required (i :: rest) seq =
          ((seed_points idx cid pts required rest (seq + 1)).1,
            ⟨pts.getD i (0, 0),
              tiera_site_props seq cid i cz.1 cz.2 (required ≤ i)⟩ ::
              (seed_points idx cid pts required rest (seq + 1)).2) := by
        simp only [seed_points, hfind]
      rw [heq]
      obtain ⟨h1, h2⟩ := ih (seq + 1)
      constructor
      · simp only [List.length_cons, h1]
        omega
      · intro j hj
        cases j with
        | zero =>
          show (tiera_site_props seq cid i cz.1 cz.2 (required ≤ i)) "site_id" =
            some (.str (site_id_a (seq + 0)))
          rw [Nat.add_zero]
          rfl
        | succ k =>
          simp only [List.length_cons, Nat.succ_lt_succ_iff] at hj
          show ((seed_points idx cid pts required rest (seq + 1)).2.getD k
              default_site_feature).props "site_id" =
            some (.str (site_id_a (seq + (k + 1))))
          rw [show seq + (k + 1) = seq + 1 + k by omega]
          exact h2 k hj

theorem seed_corridors_spec {α : Type} [LinearOrderedField α]
    (idx : List (String × String × List (List (α × α))))
    (segLen : α × α → α × α → α) (cs : List (Feature α)) (seq : ℕ)
    (hwf : ∀ c ∈ cs, c.geometry.isLineString = true ∧
      c.props "corridor_id" ≠ none ∧ c.props "corridor_id" ≠ some .null ∧
      py_int_or0 (c.props "tierA_target_sites_min") ≠ none ∧
      py_int_or0 (c.props "tierA_target_sites_max") ≠ none) :
    ∃ sites, seed_corridors idx segLen cs seq = .ok (seq + sites.length, sites) ∧
      ∀ j, j < sites.length →
        (sites.getD j default_site_feature).props "site_id" =
          some (.str (site_id_a (seq + j))) := by
  induction cs generalizing seq with
  | nil => exact ⟨[], rfl, by intro j hj; simp at hj⟩
  | cons c cs ih =>
    obtain ⟨hgeo, hcid, hcidnull, hmin, hmax⟩ := hwf c (List.mem_cons_self c cs)
    have hwfrest : ∀ c ∈ cs, c.geometry.isLineString = true ∧
        c.props "corridor_id" ≠ none ∧ c.props "corridor_id" ≠ some .null ∧
        py_int_or0 (c.props "tierA_target_sites_min") ≠ none ∧
        py_int_or0 (c.props "tierA_target_sites_max") ≠ none :=
      fun g hg => hwf g (List.mem_cons_of_mem c hg)
    match hg : c.geometry with
    | .polygon _ => rw [hg] at hgeo; simp [Geom.isLineString] at hgeo
    | .multiPolygon _ => rw [hg] at hgeo; simp [Geom.isLineString] at hgeo
    | .unsupported _ => rw [hg] at hgeo; simp [Geom.isLineString] at hgeo
    | .lineString coords =>
    match hmn : py_int_or0 (c.props "tierA_target_sites_min") with
    | none => exact absurd hmn hmin
    | some tmin =>
    match hmx : py_int_or0 (c.props "tierA_target_sites_max") with
    | none => exact absurd hmx hmax
    | some tmax =>
    match hci : c.props "corridor_id" with
    | none => exact absurd hci hcid
    | some cid =>
    have hcnull : ¬cid = .null := fun h => hcidnull (by rw [hci, h])
    by_cases htot : tmin.toNat + (tmax - tmin).toNat = 0
    · have heq : seed_corridors idx segLen (c :: cs) seq =
          seed_corridors idx segLen cs seq := by
        simp only [seed_corridors, hg, hmn, hmx, hci, if_neg hcnull, if_pos htot]
      rw [heq]
      exact ih seq hwfrest
    · have hsp := seed_points_spec idx cid
        (_sample_points_along_line segLen coords
          (tmin.toNat + (tmax - tmin).toNat)) tmin.toNat
        (List.range (tmin.toNat + (tmax - tmin).toNat)) seq
      obtain ⟨more, hrest, hmore⟩ := ih
        (seed_points idx cid
          (_sample_points_along_line segLen coords
            (tmin.toNat + (tmax - tmin).toNat)) tmin.toNat
          (List.range (tmin.toNat + (tmax - tmin).toNat)) seq).1 hwfrest
      refine ⟨(seed_points idx cid
          (_sample_points_along_line segLen coords
            (tmin.toNat + (tmax - tmin).toNat)) tmin.toNat
          (List.range (tmin.toNat + (tmax - tmin).toNat)) seq).2 ++ more, ?_, ?_⟩
      · have heq : seed_corridors idx segLen (c :: cs) seq =
            match seed_corridors idx segLen cs
                (seed_points idx cid
                  (_sample_points_along_line segLen coords
                    (tmin.toNat + (tmax - tmin).toNat)) tmin.toNat
                  (List.range (tmin.toNat + (tmax - tmin).toNat)) seq).1 with
            | .ok rr => .ok (rr.1,
                (seed_points idx cid
                  (_sample_points_along_line segLen coords
                    (tmin.toNat + (tmax - tmin).toNat)) tmin.toNat
                  (List.range (tmin.toNat + (tmax - tmin).toNat)) seq).2 ++ rr.2)
            | .error e => .error e := by
          simp only [seed_corridors, hg, hmn, hmx, hci, if_neg hcnull, if_neg htot]
        rw [heq, hrest]
        rw [(seed_points_spec idx cid _ tmin.toNat _ seq).1]
        simp only [List.length_append]
        rw [Nat.add_assoc]
      · intro j hj
        rw [List.length_append] at hj
        by_cases hjl : j < (seed_points idx cid
            (_sample_points_along_line segLen coords
              (tmin.toNat + (tmax - tmin).toNat)) tmin.toNat
            (List.range (tmin.toNat + (tmax - tmin).toNat)) seq).2.length
        · have e := List.getD_append
            (seed_points idx cid
              (_sample_points_along_line segLen coords
                (tmin.toNat + (tmax - tmin).toNat)) tmin.toNat
              (List.range (tmin.toNat + (tmax - tmin).toNat)) seq).2 more
            default_site_feature j hjl
          rw [e]
          exact hsp.2 j hjl
        · have e := List.getD_append_right
            (seed_points idx cid
              (_sample_points_along_line segLen coords
                (tmin.toNat + (tmax - tmin).toNat)) tmin.toNat
              (List.range (tmin.toNat + (tmax - tmin).toNat)) seq).2 more
            default_site_feature j (by omega)
          rw [e, hmore _ (by omega), hsp.1]
          congr 3
          omega

/-- C8: Tier-A seeding drops a sampled point that matches no hex cell
without raising (under well-formed corridor inputs the pass always returns
`ok`), and a dropped point does not consume a site-id sequence number: past
the kept non-Tier-A prefix, the output's seeded site ids are exactly
`S_A_0001, S_A_0002, …`, consecutive with no gaps, in sampling order over
the seeded (non-dropped) points — for every hex index and every
point-resolution outcome. -/
theorem claim_c8 :
    ∀ {α : Type} [_inst : LinearOrderedField α] (segLen : α × α → α × α → α)
      (corridors hexes : List (Feature α)) (existing : List (SiteFeature α)),
      corridors.isEmpty = false → hexes.isEmpty = false →
      (∀ c ∈ corridors, c.geometry.isLineString = true ∧
        c.props "corridor_id" ≠ none ∧ c.props "corridor_id" ≠ some .null ∧
        py_int_or0 (c.props "tierA_target_sites_min") ≠ none ∧
        py_int_or0 (c.props "tierA_target_sites_max") ≠ none) →
      (∃ out, seed_tiera_main segLen corridors hexes existing = .ok out) ∧
      ∀ out, seed_tiera_main segLen corridors hexes existing = .ok out →
        ∀ j, (existing.filter
            (fun f => !(f.props "tier" == some (.str "A")))).length ≤ j →
          j < out.length →
          (out.getD j default_site_feature).props "site_id" =
            some (.str (site_id_a (j - (existing.filter
              (fun f => !(f.props "tier" == some (.str "A")))).length + 1))) := by
  intro α _inst segLen corridors hexes existing hc hh hwf
  obtain ⟨sites, hok, hids⟩ :=
    seed_corridors_spec (_build_hex_index hexes) segLen corridors 1 hwf
  have hmain : seed_tiera_main segLen corridors hexes existing =
      .ok ((existing.filter (fun f => !(f.props "tier" == some (.str "A")))) ++
        sites) := by
    unfold seed_tiera_main
    rw [hc, hh]
    simp only [Bool.false_eq_true, if_false, hok]
  refine ⟨⟨_, hmain⟩, ?_⟩
  intro out hout j hjk hjl
  rw [hmain] at hout
  obtain rfl : (existing.filter
      (fun f => !(f.props "tier" == some (.str "A")))) ++ sites = out :=
    Except.ok.inj hout
  rw [List.length_append] at hjl
  have e := List.getD_append_right
    (existing.filter (fun f => !(f.props "tier" == some (.str "A")))) sites
    default_site_feature j hjk
  rw [e, hids _ (by omega)]
  congr 3
  omega

/-- Witness for C8: one well-formed corridor over a hex collection whose
only feature is not a Polygon, so the hex index is empty and every sampled
point is dropped; the pass still completes with an `ok` result containing
only the kept non-Tier-A site. -/
theorem claim_c8_witness :
    (∃ out, seed_tiera_main c8_seglen [c8_corridor] [c8_badhex]
      [c8_existing] = .ok out) ∧
    ((seed_tiera_main c8_seglen [c8_corridor] [c8_badhex]
        [c8_existing]).toOption.getD []).length = 1 := by
  have h := claim_c8 c8_seglen [c8_corridor] [c8_badhex] [c8_existing]
    (by decide) (by decide) (by decide)
  exact ⟨h.1, rfl⟩

/-! ### Concrete input for the Tier-B seeding claim -/

/-- A scored hex requiring 1 Tier-B site and 0 alternates. -/
def c10_hex : Feature ℚ :=
  ⟨(fun k =>
    if k = "cell_id" then some (.str "H9")
    else if k = "zone_id" then some (.str "Z1")
    else if k = "tierB_sites_required" then some (.num 1)
    else if k = "tierB_alternate_required" then some (.num 0)
    else none), .polygon [[(0, 0), (1, 0), (1, 1), (0, 0)]]⟩


/-! ### Lemmas: Tier-B seeding -/

theorem seed_hex_points_spec {α : Type} [LinearOrderedField α]
    (cell zone : JVal) (pts : List (α × α)) (required : ℤ)
    (is : List ℕ) (seq : ℕ) :
    (seed_hex_points cell zone pts required is seq).1 =
      seq + (seed_hex_points cell zone pts required is seq).2.length ∧
    ∀ j, j < (seed_hex_points cell zone pts required is seq).2.length →
      ((seed_hex_points cell zone pts required is seq).2.getD j
          default_site_feature).props "site_id" =
        some (.str (site_id_b (seq + j))) ∧
      ((seed_hex_points cell zone pts required is seq).2.getD j
          default_site_feature).props "tier" = some (.str "B") ∧
      ((seed_hex_points cell zone pts required is seq).2.getD j
          default_site_feature).props "status" = some (.str "CANDIDATE") := by
  induction is generalizing seq with
  | nil => exact ⟨rfl, by intro j hj; simp [seed_hex_points] at hj⟩
  | cons i rest ih =>
    have heq : seed_hex_points cell zone pts required (i :: rest) seq =
        ((seed_hex_points cell zone pts required rest (seq + 1)).1,
          ⟨pts.getD i (0, 0),
            tierb_site_props seq cell zone i (required ≤ (i : ℤ))⟩ ::
            (seed_hex_points cell zone pts required rest (seq + 1)).2) := by
      simp only [seed_hex_points]
    rw [heq]
    obtain ⟨h1, h2⟩ := ih (seq + 1)
    constructor
    · simp only [List.length_cons, h1]
      omega
    · intro j hj
      cases j with
      | zero =>
        refine ⟨?_, rfl, rfl⟩
        show (tierb_site_props seq cell zone i (required ≤ (i : ℤ))) "site_id" =
          some (.str (site_id_b (seq + 0)))
        rw [Nat.add_zero]
        rfl
      | succ k =>
        simp only [List.length_cons, Nat.succ_lt_succ_iff] at hj
        have hk := h2 k hj
        refine ⟨?_, hk.2.1, hk.2.2⟩
        show ((seed_hex_points cell zone pts required rest (seq + 1)).2.getD k
            default_site_feature).props "site_id" =
          some (.str (site_id_b (seq + (k + 1))))
        rw [show seq + (k + 1) = seq + 1 + k by omega]
        exact hk.1

/-- Well-formedness of one hex feature for the Tier-B seeding pass: the
cell-id chain and `zone_id` resolve, the counts parse, and the centroid
computation succeeds. -/
def tierb_hex_wf {α : Type} [LinearOrderedField α] (h : Feature α) : Prop :=
  feature_cell_id_chain h.props ≠ none ∧
  feature_cell_id_chain h.props ≠ some .null ∧
  h.props "zone_id" ≠ none ∧ h.props "zone_id" ≠ some .null ∧
  py_int_or0 (h.props "tierB_sites_required") ≠ none ∧
  py_int_or0 (h.props "tierB_alternate_required") ≠ none ∧
  (_get_centroid h.geometry).isOk = true

theorem seed_tierb_hexes_spec {α : Type} [LinearOrderedField α]
    (hexes : List (Feature α)) (seq : ℕ)
    (hwf : ∀ h ∈ hexes, tierb_hex_wf h) :
    ∃ sites, seed_tierb_hexes hexes seq = .ok (seq + sites.length, sites) ∧
      ∀ j, j < sites.length →
        (sites.getD j default_site_feature).props "site_id" =
          some (.str (site_id_b (seq + j))) ∧
        (sites.getD j default_site_feature).props "tier" = some (.str "B") ∧
        (sites.getD j default_site_feature).props "status" =
          some (.str "CANDIDATE") := by
  induction hexes generalizing seq with
  | nil => exact ⟨[], rfl, by intro j hj; simp at hj⟩
  | cons h hexes ih =>
    obtain ⟨hcell, hcnull, hzone, hznull, hreq, halt, hcent⟩ :=
      hwf h (List.mem_cons_self h hexes)
    have hwfrest : ∀ g ∈ hexes, tierb_hex_wf g :=
      fun g hg => hwf g (List.mem_cons_of_mem h hg)
    match hcc : feature_cell_id_chain h.props with
    | none => exact absurd hcc hcell
    | some cell =>
    have hcellnull : ¬cell = .null := fun he => hcnull (by rw [hcc, he])
    match hzz : h.props "zone_id" with
    | none => exact absurd hzz hzone
    | some zone =>
    have hzonenull : ¬zone = .null := fun he => hznull (by rw [hzz, he])
    match hrr : py_int_or0 (h.props "tierB_sites_required") with
    | none => exact absurd hrr hreq
    | some req =>
    match haa : py_int_or0 (h.props "tierB_alternate_required") with
    | none => exact absurd haa halt
    | some alt =>
    by_cases htot : req + alt = 0
    · have heq : seed_tierb_hexes (h :: hexes) seq =
          seed_tierb_hexes hexes seq := by
        simp only [seed_tierb_hexes, hcc, if_neg hcellnull, hzz,
          if_neg hzonenull, hrr, haa, if_pos htot]
      rw [heq]
      exact ih seq hwfrest
    · match hce : _get_centroid h.geometry with
      | .error e => rw [hce] at hcent; simp [Except.isOk, Except.toBool] at hcent
      | .ok ctr =>
      obtain ⟨more, hrest, hmore⟩ := ih
        (seed_hex_points cell zone (_candidate_points ctr.1 ctr.2 (req + alt))
          req (List.range (req + alt).toNat) seq).1 hwfrest
      have hsp := seed_hex_points_spec cell zone
        (_candidate_points ctr.1 ctr.2 (req + alt)) req
        (List.range (req + alt).toNat) seq
      refine ⟨(seed_hex_points cell zone
          (_candidate_points ctr.1 ctr.2 (req + alt)) req
          (List.range (req + alt).toNat) seq).2 ++ more, ?_, ?_⟩
      · have heq : seed_tierb_hexes (h :: hexes) seq =
            match seed_tierb_hexes hexes
                (seed_hex_points cell zone
                  (_candidate_points ctr.1 ctr.2 (req + alt)) req
                  (List.range (req + alt).toNat) seq).1 with
            | .ok rr => .ok (rr.1,
                (seed_hex_points cell zone
                  (_candidate_points ctr.1 ctr.2 (req + alt)) req
                  (List.range (req + alt).toNat) seq).2 ++ rr.2)
            | .error e => .error e := by
          simp only [seed_tierb_hexes, hcc, if_neg hcellnull, hzz,
            if_neg hzonenull, hrr, haa, if_neg htot, hce]
        rw [heq, hrest, hsp.1]
        simp only [List.length_append]
        rw [Nat.add_assoc]
      · intro j hj
        rw [List.length_append] at hj
        by_cases hjl : j < (seed_hex_points cell zone
            (_candidate_points ctr.1 ctr.2 (req + alt)) req
            (List.range (req + alt).toNat) seq).2.length
        · have e := List.getD_append
            (seed_hex_points cell zone
              (_candidate_points ctr.1 ctr.2 (req + alt)) req
              (List.range (req + alt).toNat) seq).2 more
            default_site_feature j hjl
          rw [e]
          exact hsp.2 j hjl
        · have e := List.getD_append_right
            (seed_hex_points cell zone
              (_candidate_points ctr.1 ctr.2 (req + alt)) req
              (List.range (req + alt).toNat) seq).2 more
            default_site_feature j (by omega)
          rw [e]
          have hk := hmore (j - (seed_hex_points cell zone
            (_candidate_points ctr.1 ctr.2 (req + alt)) req
            (List.range (req + alt).toNat) seq).2.length) (by omega)
          refine ⟨?_, hk.2.1, hk.2.2⟩
          rw [hk.1, hsp.1]
          congr 3
          omega

/-- C10: with the shipped `REPLACE_SITES_FILE = True`, Tier-B seeding writes
a sites collection that does not depend on the pre-existing sites at all
(every pre-existing feature, Tier-A included, is discarded), and — for
well-formed hex inputs — the output consists solely of freshly seeded Tier-B
CANDIDATE features whose ids restart at `S_B_0001` and run consecutively. -/
theorem claim_c10 :
    ∀ {α : Type} [_inst : LinearOrderedField α] (hexes : List (Feature α))
      (existing existing2 : List (SiteFeature α)),
      seed_tierb_main hexes existing = seed_tierb_main hexes existing2 ∧
      (hexes.isEmpty = false → (∀ h ∈ hexes, tierb_hex_wf h) →
        (∃ out, seed_tierb_main hexes existing = .ok out) ∧
        ∀ out, seed_tierb_main hexes existing = .ok out →
          ∀ j, j < out.length →
            (out.getD j default_site_feature).props "site_id" =
              some (.str (site_id_b (j + 1))) ∧
            (out.getD j default_site_feature).props "tier" = some (.str "B") ∧
            (out.getD j default_site_feature).props "status" =
              some (.str "CANDIDATE")) := by
  intro α _inst hexes existing existing2
  refine ⟨rfl, fun hh hwf => ?_⟩
  obtain ⟨sites, hok, hids⟩ := seed_tierb_hexes_spec hexes 1 hwf
  have hmain : seed_tierb_main hexes existing = .ok sites := by
    unfold seed_tierb_main
    rw [hh]
    simp only [Bool.false_eq_true, if_false, REPLACE_SITES_FILE, if_true,
      List.isEmpty_nil, hok, List.nil_append]
  refine ⟨⟨sites, hmain⟩, ?_⟩
  intro out hout j hj
  rw [hmain] at hout
  obtain rfl : sites = out := Except.ok.inj hout
  have hk := hids j hj
  refine ⟨?_, hk.2.1, hk.2.2⟩
  rw [hk.1]
  congr 3
  omega

/-- Witness for C10: a single scored hex (1 required, 0 alternate); the
output ignores a junk pre-existing site, contains exactly one seeded site,
and that site is `S_B_0001`, Tier B, CANDIDATE. -/
theorem claim_c10_witness :
    seed_tierb_main [c10_hex] [c8_existing] = seed_tierb_main [c10_hex] [] ∧
    ((seed_tierb_main [c10_hex] [c8_existing]).toOption.getD []).length = 1 ∧
    ((((seed_tierb_main (α := ℚ) [c10_hex] [c8_existing]).toOption.getD
        []).getD 0 default_site_feature).props "site_id" =
      some (.str "S_B_0001")) := by
  have h := claim_c10 [c10_hex] [c8_existing] []
  have hlen : ((seed_tierb_main [c10_hex] [c8_existing]).toOption.getD
      []).length = 1 := by rfl
  have hmem := (h.2 (by decide) (by
      intro g hg
      rcases List.mem_singleton.mp hg with rfl
      exact ⟨by decide, by decide, by decide, by decide, by decide, by decide,
        rfl⟩)).2
    ((seed_tierb_main [c10_hex] [c8_existing]).toOption.getD []) rfl 0
    (by rw [hlen]; omega)
  exact ⟨h.1, hlen, hmem.1⟩

end LoraMesh
